import Mathlib

/-!
Shallow embedding of `redbacktech_client.py` (class `RedbackTechClient`), the
single source file of the redbacktechpy repository, together with theorems
checking the specification's claims about it.

Modelling conventions:
* Python strings are `List Char`; `datetime` instants are integer epoch
  seconds (`Int`), so `timedelta(minutes = m)` is `+ 60 * m`;
* JSON numbers are `ℚ` (`Option ℚ` for nullable fields); `math.sqrt` is
  `Real.sqrt`;
* Python exceptions are `Except`/`Option` failures; dictionaries are
  association lists.
-/

namespace Redback

/-- Numeric value of a decimal digit character. -/
def digVal (c : Char) : Nat := c.toNat - 48

/-- Value of a decimal-digit string, most significant digit first. -/
def digitsVal (l : List Char) : Nat := l.foldl (fun a c => a * 10 + digVal c) 0

/-- Nonempty all-digit string: the shape accepted by Python `int`. -/
def isDigits (l : List Char) : Bool := !l.isEmpty && l.all Char.isDigit

/-- Python `int(s)` on the non-negative decimal strings that occur in the
Redback wire format; `none` models the `ValueError` raised otherwise. -/
def pyInt (s : List Char) : Option Nat :=
  if isDigits s then some (digitsVal s) else none

/-- Decimal rendering of a natural number (Python `str(n)`), via fuel
recursion so that it reduces definitionally. -/
def natReprAux (fuel : Nat) (n : Nat) : List Char :=
  match fuel with
  | 0 => []
  | fuel + 1 =>
    if n < 10 then [Char.ofNat (48 + n)]
    else natReprAux fuel (n / 10) ++ [Char.ofNat (48 + n % 10)]

/-- Decimal rendering of a natural number, Python `str(n)` for `n ≥ 0`. -/
def natRepr (n : Nat) : List Char := natReprAux (n + 1) n

/-- Python `str.split(sep)` for a one-character separator. -/
def pySplit (sep : Char) : List Char → List (List Char)
  | [] => [[]]
  | c :: rest =>
    let r := pySplit sep rest
    if c = sep then [] :: r
    else (c :: r.headI) :: r.tail

/-- Python `s[-2:]`. -/
def lastTwo (l : List Char) : List Char := l.drop (l.length - 2)

/-- Python `s[-4:]`. -/
def lastFour (l : List Char) : List Char := l.drop (l.length - 4)

/-- Python `str.lower()`. -/
def pyLower (l : List Char) : List Char := l.map Char.toLower

/-- The device-id derivation used throughout the client:
`serial[-4:] + suffix`, lower-cased. -/
def deviceId (serial : List Char) (suffix : List Char) : List Char :=
  pyLower (lastFour serial ++ suffix)

/-- The duration-string arithmetic of `_convert_responses_to_schedule_entities`
(redbacktech_client.py lines 826-830): when the string contains a `.`, the
part before it contributes `days * 24 * 60` and parsing continues on the part
after it; then the first two `:`-separated fields contribute
`hours * 60 + minutes`.  `none` models the exception raised on a malformed
string. -/
def parseDurationMinutes (s : List Char) : Option Nat := do
  let (days, rest) ←
    if '.' ∈ s then do
      let parts := pySplit '.' s
      let p0 ← parts[0]?
      let d ← pyInt p0
      let p1 ← parts[1]?
      pure (d * 24 * 60, p1)
    else pure ((0 : Nat), s)
  let parts := pySplit ':' rest
  let q0 ← parts[0]?
  let h ← pyInt q0
  let q1 ← parts[1]?
  let m ← pyInt q1
  pure (h * 60 + m + days)

/-- The `D.HH:MM:SS` string built by `set_inverter_schedule`
(redbacktech_client.py lines 244-251) from a whole-minute duration:
`days = int(duration/1440)`, `hours = int(duration/60)`,
`minutes = ('00'+str(int(duration - hours*60)))[-2:]`,
`hours = ('00'+str(hours))[-2:]`, rendered `f'{days}.{hours}:{minutes}:00'`.
The `days < 0` clamp of lines 246-247 is vacuous for a natural number. -/
def encodeDuration (duration : Nat) : List Char :=
  let days := duration / 1440
  let hours := duration / 60
  let minutes := lastTwo ('0' :: '0' :: natRepr (duration - hours * 60))
  let hours2 := lastTwo ('0' :: '0' :: natRepr hours)
  natRepr days ++ '.' :: (hours2 ++ ':' :: (minutes ++ ':' :: ['0', '0']))

/-- `datetime + timedelta(minutes = m)` on epoch-second instants. -/
def addMinutes (t : Int) (m : Nat) : Int := t + 60 * m

/-- One element of the vendor `Schedules` payload, with `StartTimeUtc`
already carried as the instant that `datetime.fromisoformat` yields on the
`Z → +00:00` rewritten text. -/
structure RawSchedule where
  ScheduleId : List Char
  SerialNumber : List Char
  SiteId : List Char
  StartTimeUtc : Int
  Duration : List Char
  InverterMode : List Char
  ArgumentInWatts : Int
  deriving DecidableEq, Repr

/-- The normalized schedule record built at redbacktech_client.py lines
832-843. -/
structure SchedEntity where
  schedule_id : List Char
  serial_number : List Char
  siteid : List Char
  start_time_utc : Int
  end_time : Int
  duration : Nat
  inverter_mode : List Char
  power_w : Int
  device_id : List Char
  device_type : List Char
  deriving DecidableEq, Repr

/-- Normalization of a single vendor schedule (the body of the loop at
redbacktech_client.py lines 825-844). -/
def convertOneSchedule (id_temp : List Char) (sch : RawSchedule) :
    Option SchedEntity := do
  let d ← parseDurationMinutes sch.Duration
  pure { schedule_id := sch.ScheduleId
         serial_number := sch.SerialNumber
         siteid := sch.SiteId
         start_time_utc := sch.StartTimeUtc
         end_time := addMinutes sch.StartTimeUtc d
         duration := d
         inverter_mode := sch.InverterMode
         power_w := sch.ArgumentInWatts
         device_id := id_temp
         device_type := "inverter".data }

/-- `_convert_responses_to_schedule_entities` (redbacktech_client.py lines
819-845): zero schedules yield no entities, otherwise the device id comes
from the first schedule's serial number and every schedule is normalized in
order.  `none` models the exception raised on a malformed duration. -/
def convertSchedules (schedules : List RawSchedule) :
    Option (List SchedEntity) :=
  match schedules with
  | [] => some []
  | first :: _ =>
    schedules.mapM (convertOneSchedule (deviceId first.SerialNumber ("inv".data)))

/-- A concrete schedule used to instantiate the schedule theorems. -/
def sampleSchedule : RawSchedule :=
  { ScheduleId := "sch-1".data
    SerialNumber := "RB221500112233".data
    SiteId := "site1".data
    StartTimeUtc := 1700000000
    Duration := "0.02:15:00".data
    InverterMode := "ChargeBattery".data
    ArgumentInWatts := 2400 }

/-- Python exception kinds raised by the embedded code paths. -/
inductive PyErr where
  | typeError
  | keyError
  | indexError
  | zeroDivisionError
  | attributeError
  | valueError
  deriving DecidableEq, Repr

/-- The test `(self.token or self.token_expiration) is None` of
`_check_token` (redbacktech_client.py line 697): Python `or` returns its
first truthy operand, and `None` and the empty string are falsy. -/
def tokenOrExpirationIsNone (token : Option (List Char))
    (texp : Option Int) : Bool :=
  match token with
  | some s => if s.isEmpty then texp.isNone else false
  | none => texp.isNone

/-- `_check_token` (redbacktech_client.py lines 689-702) as a decision:
`.ok true` when the call performs `_api_login`, `.ok false` when it returns
without logging in.  `.error` models the `TypeError` of `None - datetime`
when a token exists without an expiry. -/
def check_token (token : Option (List Char)) (texp : Option Int)
    (now : Int) : Except PyErr Bool :=
  if tokenOrExpirationIsNone token texp then .ok true
  else
    match texp with
    | none => .error .typeError
    | some e => if e - now < 3600 then .ok true else .ok false

/-- The vendor auth response `{access_token, token_type, expires_in}`. -/
structure AuthResponse where
  access_token : List Char
  token_type : List Char
  expires_in : Int
  deriving DecidableEq, Repr

/-- The token fields stored on the client. -/
structure TokenState where
  token : Option (List Char)
  token_type : Option (List (List Char))
  token_expiration : Option Int
  deriving DecidableEq, Repr

/-- `_api_login` (redbacktech_client.py lines 144-157): stores
`token_type + ' ' + access_token` as the token and `now + expires_in` as the
absolute expiry.  Line 156 assigns the literal one-element list
`['token_type']` (not the response field) to `self.token_type`; the quirk is
reproduced verbatim. -/
def api_login (resp : AuthResponse) (now : Int) : TokenState :=
  { token := some (resp.token_type ++ ' ' :: resp.access_token)
    token_type := some ["token_type".data]
    token_expiration := some (now + resp.expires_in) }

/-- Entity values as stored in the flat entity dictionaries. -/
inductive EVal where
  | none
  | num (q : ℚ)
  | str (s : List Char)
  | time (t : Int)
  deriving DecidableEq, Repr

/-- Embed a nullable JSON number. -/
def optNum : Option ℚ → EVal
  | Option.none => .none
  | some q => .num q

/-- A flat entity record (a `dataDict` appended to `_redback_entities`):
value, entity_name, device_id, device_type, optional `type_set` tag. -/
structure Entity where
  value : EVal
  entity_name : List Char
  device_id : List Char
  device_type : List Char
  type_set : Option (List Char) := Option.none
  deriving DecidableEq, Repr

/-- `data['Data']['StaticData']['Location']`. -/
structure RawLocation where
  Latitude : EVal
  Longitude : EVal
  deriving DecidableEq, Repr

/-- `data['Data']['StaticData']['SiteDetails']`; `BatteryCapacitykWh` is
numeric because the battery converter multiplies it by the state of
charge. -/
structure RawSiteDetails where
  GenerationHardLimitVA : EVal
  GenerationSoftLimitVA : EVal
  ExportHardLimitkW : EVal
  ExportSoftLimitkW : EVal
  SiteExportLimitkW : EVal
  PanelModel : EVal
  PanelSizekW : EVal
  SystemType : EVal
  InverterMaxExportPowerkW : EVal
  InverterMaxImportPowerkW : EVal
  BatteryMaxChargePowerkW : EVal
  BatteryMaxDischargePowerkW : EVal
  BatteryCapacitykWh : ℚ
  UsableBatteryCapacitykWh : EVal
  deriving DecidableEq, Repr

/-- `data['Data']['StaticData']` (site level); `ConnType` carries the JSON
key `RemoteAccessConnection.Type` and `SiteType` the key `Type` (both
renamed because `Type` is reserved in Lean). -/
structure RawSiteStatic where
  Location : RawLocation
  ConnType : EVal
  ApprovedCapacityW : EVal
  SiteDetails : RawSiteDetails
  CommissioningDate : EVal
  NMI : EVal
  Id : EVal
  SiteType : EVal
  deriving DecidableEq, Repr

/-- `data['Data']['Nodes'][0]['StaticData']`: `Id` is the inverter serial
number. -/
structure RawNodeStatic where
  Id : List Char
  ModelName : List Char
  BatteryCount : Int
  SoftwareVersion : EVal
  FirmwareVersion : EVal
  BatteryModels : List (List Char)
  deriving DecidableEq, Repr

/-- The static payload of `_get_static_by_serial`, restricted to the keys
the client reads. -/
structure RawStatic where
  nodeStatic : RawNodeStatic
  siteStatic : RawSiteStatic
  deriving DecidableEq, Repr

/-- One element of `data2['Data']['PVs']`. -/
structure RawPV where
  CurrentA : EVal
  VoltageV : EVal
  PowerkW : EVal
  deriving DecidableEq, Repr

/-- One element of `data2['Data']['Phases']`.  `VoltageInstantaneousV` is
nullable (the loop tests it against `None`); the remaining summed fields are
modelled as numbers, matching payloads on which the source code does not
raise inside the guarded sum. -/
structure RawPhase where
  Id : List Char
  VoltageInstantaneousV : Option ℚ
  CurrentInstantaneousA : ℚ
  ActiveExportedPowerInstantaneouskW : ℚ
  ActiveImportedPowerInstantaneouskW : ℚ
  PowerFactorInstantaneousMinus1to1 : EVal
  deriving DecidableEq, Repr

/-- One element of `data2['Data']['Battery']['Modules']`. -/
structure RawBatteryModule where
  CurrentNegativeIsChargingA : ℚ
  VoltageV : EVal
  PowerNegativeIsChargingkW : ℚ
  SoC0To1 : ℚ
  deriving DecidableEq, Repr

/-- One element of `data2['Data']['Battery']['Cabinets']`. -/
structure RawCabinet where
  TemperatureC : EVal
  FanState : EVal
  deriving DecidableEq, Repr

/-- `data2['Data']['Battery']`. -/
structure RawBattery where
  CurrentNegativeIsChargingA : EVal
  VoltageV : EVal
  VoltageType : EVal
  NumberOfModules : EVal
  Modules : List RawBatteryModule
  Cabinets : List RawCabinet
  deriving DecidableEq, Repr

/-- The dynamic payload of `_get_dynamic_by_serial`, restricted to the keys
the client reads.  `TimestampUtc` carries the instant parsed by
`datetime.fromisoformat`; `PowerModeInverterMode`/`PowerModePowerW` carry
`Inverters[0].PowerMode.{InverterMode, PowerW}`. -/
structure RawDynamic where
  TimestampUtc : Int
  FrequencyInstantaneousHz : EVal
  PvPowerInstantaneouskW : ℚ
  InverterTemperatureC : EVal
  PvAllTimeEnergykWh : Option ℚ
  ExportAllTimeEnergykWh : Option ℚ
  ImportAllTimeEnergykWh : Option ℚ
  LoadAllTimeEnergykWh : Option ℚ
  Status : EVal
  PowerModeInverterMode : EVal
  PowerModePowerW : EVal
  PVs : List RawPV
  Phases : List RawPhase
  BatterySoCInstantaneous0to1 : ℚ
  BatteryPowerNegativeIsChargingkW : ℚ
  BatteryChargeAllTimeEnergykWh : Option ℚ
  BatteryDischargeAllTimeEnergykWh : Option ℚ
  Battery : RawBattery
  deriving DecidableEq, Repr

/-- The config payload of `_get_config_by_serial` (minimum state of
charge). -/
structure RawSoC where
  MinSoC0to1 : ℚ
  MinOffgridSoC0to1 : ℚ
  deriving DecidableEq, Repr

/-- Python `round(x, ndigits)` for exact rational values.  Vendor values are
far from representation ties in every verified statement, so round-half-up
stands in for Python's round-half-even. -/
def pyRound (ndigits : Nat) (q : ℚ) : ℚ :=
  (round (q * 10 ^ ndigits) : ℤ) / 10 ^ ndigits

/-- Python `round(x, 1)` applied to the real-valued phase-voltage aggregate
(whose computation involves `math.sqrt`). -/
noncomputable def pyRound1R (x : ℝ) : ℚ :=
  (round (x * 10) : ℤ) / 10

/-- The fixed inverter entities appended at redbacktech_client.py lines
854-933: static metadata, dynamic headline figures, and the four all-time
energy counters with their kWh → MWh conversion guarded by a null test. -/
def inverterBaseEntities (s : RawStatic) (d : RawDynamic) : List Entity :=
  let id_temp := deviceId s.nodeStatic.Id ("inv".data)
  let dt := "inverter".data
  [ { value := .str s.nodeStatic.ModelName, entity_name := "model_name".data,
      device_id := id_temp, device_type := dt,
      type_set := some ("sensor.string".data) },
    { value := .str s.nodeStatic.Id, entity_name := "serial_number".data,
      device_id := id_temp, device_type := dt,
      type_set := some ("sensor.string".data) },
    { value := s.siteStatic.Location.Latitude, entity_name := "latitude".data,
      device_id := id_temp, device_type := dt,
      type_set := some ("sensor.string".data) },
    { value := s.siteStatic.Location.Longitude,
      entity_name := "longitude".data, device_id := id_temp,
      device_type := dt, type_set := some ("sensor.string".data) },
    { value := s.siteStatic.ConnType, entity_name := "network_connection".data,
      device_id := id_temp, device_type := dt },
    { value := s.siteStatic.ApprovedCapacityW,
      entity_name := "approved_capacity_w".data, device_id := id_temp,
      device_type := dt },
    { value := s.siteStatic.SiteDetails.GenerationHardLimitVA,
      entity_name := "generation_hard_limit_va".data, device_id := id_temp,
      device_type := dt },
    { value := s.siteStatic.SiteDetails.GenerationSoftLimitVA,
      entity_name := "generation_soft_limit_va".data, device_id := id_temp,
      device_type := dt },
    { value := s.siteStatic.SiteDetails.ExportHardLimitkW,
      entity_name := "export_hard_limit_kw".data, device_id := id_temp,
      device_type := dt },
    { value := s.siteStatic.SiteDetails.ExportSoftLimitkW,
      entity_name := "export_soft_limit_kw".data, device_id := id_temp,
      device_type := dt },
    { value := s.siteStatic.SiteDetails.SiteExportLimitkW,
      entity_name := "site_export_limit_kw".data, device_id := id_temp,
      device_type := dt },
    { value := s.siteStatic.SiteDetails.PanelModel,
      entity_name := "pv_panel_model".data, device_id := id_temp,
      device_type := dt },
    { value := s.siteStatic.SiteDetails.PanelSizekW,
      entity_name := "pv_panel_size_kw".data, device_id := id_temp,
      device_type := dt },
    { value := s.siteStatic.SiteDetails.SystemType,
      entity_name := "system_type".data, device_id := id_temp,
      device_type := dt },
    { value := s.siteStatic.SiteDetails.InverterMaxExportPowerkW,
      entity_name := "inverter_max_export_power_kw".data,
      device_id := id_temp, device_type := dt },
    { value := s.siteStatic.SiteDetails.InverterMaxImportPowerkW,
      entity_name := "inverter_max_import_power_kw".data,
      device_id := id_temp, device_type := dt },
    { value := s.siteStatic.CommissioningDate,
      entity_name := "commissioning_date".data, device_id := id_temp,
      device_type := dt },
    { value := s.siteStatic.NMI, entity_name := "nmi".data,
      device_id := id_temp, device_type := dt },
    { value := s.siteStatic.Id, entity_name := "site_id".data,
      device_id := id_temp, device_type := dt },
    { value := s.siteStatic.SiteType,
      entity_name := "inverter_site_type".data, device_id := id_temp,
      device_type := dt },
    { value := .num (s.nodeStatic.BatteryCount : ℚ),
      entity_name := "battery_count".data, device_id := id_temp,
      device_type := dt },
    { value := s.nodeStatic.SoftwareVersion,
      entity_name := "software_version".data, device_id := id_temp,
      device_type := dt },
    { value := s.nodeStatic.FirmwareVersion,
      entity_name := "firmware_version".data, device_id := id_temp,
      device_type := dt },
    { value := .time d.TimestampUtc, entity_name := "timestamp_utc".data,
      device_id := id_temp, device_type := dt },
    { value := d.FrequencyInstantaneousHz,
      entity_name := "frequency_instantaneous".data, device_id := id_temp,
      device_type := dt },
    { value := .num d.PvPowerInstantaneouskW,
      entity_name := "pv_power_instantaneous_kw".data, device_id := id_temp,
      device_type := dt },
    { value := d.InverterTemperatureC,
      entity_name := "inverter_temperature_c".data, device_id := id_temp,
      device_type := dt },
    { value :=
        match d.PvAllTimeEnergykWh with
        | some v => .num (v / 1000)
        | Option.none => .none,
      entity_name := "pv_all_time_energy_mwh".data, device_id := id_temp,
      device_type := dt },
    { value :=
        match d.ExportAllTimeEnergykWh with
        | some v => .num (v / 1000)
        | Option.none => .none,
      entity_name := "export_all_time_energy_mwh".data, device_id := id_temp,
      device_type := dt },
    { value :=
        match d.ImportAllTimeEnergykWh with
        | some v => .num (v / 1000)
        | Option.none => .none,
      entity_name := "import_all_time_energy_mwh".data, device_id := id_temp,
      device_type := dt },
    { value :=
        match d.LoadAllTimeEnergykWh with
        | some v => .num (v / 1000)
        | Option.none => .none,
      entity_name := "load_all_time_energy_mwh".data, device_id := id_temp,
      device_type := dt },
    { value := d.Status, entity_name := "status".data, device_id := id_temp,
      device_type := dt },
    { value := d.PowerModeInverterMode,
      entity_name := "power_mode_inverter_mode".data, device_id := id_temp,
      device_type := dt },
    { value := d.PowerModePowerW, entity_name := "power_mode_power_w".data,
      device_id := id_temp, device_type := dt } ]

/-- Per-MPPT entities (redbacktech_client.py lines 936-947), `pvId`
starting from 1. -/
def pvEntities (id_temp : List Char) (pvId : Nat) :
    List RawPV → List Entity
  | [] => []
  | pv :: rest =>
    { value := pv.CurrentA,
      entity_name := "mppt_".data ++ natRepr pvId ++ "_current_a".data,
      device_id := id_temp, device_type := "inverter".data } ::
    { value := pv.VoltageV,
      entity_name := "mppt_".data ++ natRepr pvId ++ "_voltage_v".data,
      device_id := id_temp, device_type := "inverter".data } ::
    { value := pv.PowerkW,
      entity_name := "mppt_".data ++ natRepr pvId ++ "_power_kw".data,
      device_id := id_temp, device_type := "inverter".data } ::
    pvEntities id_temp (pvId + 1) rest

/-- Accumulator of the phase loop (redbacktech_client.py lines 948-980). -/
structure PhaseAcc where
  count : Nat
  vsum : ℚ
  csum : ℚ
  expsum : ℚ
  impsum : ℚ
  netsum : ℚ
  entities : List Entity
  deriving DecidableEq, Repr

/-- One iteration of the phase loop (lines 954-980): sums are only updated
when the phase voltage is non-null, the six per-phase entities are always
appended. -/
def phaseStep (id_temp : List Char) (acc : PhaseAcc) (phase : RawPhase) :
    PhaseAcc :=
  let acc :=
    match phase.VoltageInstantaneousV with
    | some v =>
      { acc with
        count := acc.count + 1
        vsum := acc.vsum + v
        csum := acc.csum + phase.CurrentInstantaneousA
        expsum := acc.expsum + phase.ActiveExportedPowerInstantaneouskW
        impsum := acc.impsum + phase.ActiveImportedPowerInstantaneouskW
        netsum := acc.netsum + (phase.ActiveImportedPowerInstantaneouskW -
          phase.ActiveExportedPowerInstantaneouskW) }
    | Option.none => acc
  let phaseAlpha := pyLower phase.Id
  { acc with entities := acc.entities ++
      [ { value := .num phase.ActiveExportedPowerInstantaneouskW,
          entity_name := "inverter_phase_".data ++ phaseAlpha ++
            "_active_exported_power_instantaneous_kw".data,
          device_id := id_temp, device_type := "inverter".data },
        { value := .num phase.ActiveImportedPowerInstantaneouskW,
          entity_name := "inverter_phase_".data ++ phaseAlpha ++
            "_active_imported_power_instantaneous_kw".data,
          device_id := id_temp, device_type := "inverter".data },
        { value := .num (phase.ActiveImportedPowerInstantaneouskW -
            phase.ActiveExportedPowerInstantaneouskW),
          entity_name := "inverter_phase_".data ++ phaseAlpha ++
            "_active_net_power_instantaneous_kw".data,
          device_id := id_temp, device_type := "inverter".data },
        { value := optNum phase.VoltageInstantaneousV,
          entity_name := "inverter_phase_".data ++ phaseAlpha ++
            "_voltage_instantaneous_v".data,
          device_id := id_temp, device_type := "inverter".data },
        { value := .num phase.CurrentInstantaneousA,
          entity_name := "inverter_phase_".data ++ phaseAlpha ++
            "_current_instantaneous_a".data,
          device_id := id_temp, device_type := "inverter".data },
        { value := phase.PowerFactorInstantaneousMinus1to1,
          entity_name := "inverter_phase_".data ++ phaseAlpha ++
            "_power_factor_instantaneous_minus_1to1".data,
          device_id := id_temp, device_type := "inverter".data } ] }

/-- The whole phase loop. -/
def phaseLoop (id_temp : List Char) (phases : List RawPhase) : PhaseAcc :=
  phases.foldl (phaseStep id_temp) ⟨0, 0, 0, 0, 0, 0, []⟩

/-- The non-null per-phase voltages of a dynamic payload. -/
def phaseVoltages (d : RawDynamic) : List ℚ :=
  d.Phases.filterMap (fun p => p.VoltageInstantaneousV)

/-- The specification formula for the total-phase-voltage aggregate:
`(sum of per-phase voltages / phase_count) × sqrt(phase_count)`, rounded to
one decimal. -/
noncomputable def specTotalPhaseVoltage (d : RawDynamic) : ℚ :=
  pyRound1R ((((phaseVoltages d).sum : ℚ) : ℝ) /
    (((phaseVoltages d).length : ℕ) : ℝ) *
    Real.sqrt (((phaseVoltages d).length : ℕ) : ℝ))

/-- The five aggregate entities appended at redbacktech_client.py lines
981-991 (total voltage, total current, total exported/imported power, and
the net power rounded to three decimals). -/
def inverterAggEntities (id_temp : List Char)
    (tv csum expsum impsum netsum : ℚ) : List Entity :=
  [ { value := .num tv,
      entity_name := "inverter_phase_total_voltage_instantaneous_v".data,
      device_id := id_temp, device_type := "inverter".data },
    { value := .num csum,
      entity_name := "inverter_phase_total_current_instantaneous_a".data,
      device_id := id_temp, device_type := "inverter".data },
    { value := .num expsum,
      entity_name :=
        "inverter_phase_total_active_exported_power_instantaneous_kw".data,
      device_id := id_temp, device_type := "inverter".data },
    { value := .num impsum,
      entity_name :=
        "inverter_phase_total_active_imported_power_instantaneous_kw".data,
      device_id := id_temp, device_type := "inverter".data },
    { value := .num (pyRound 3 netsum),
      entity_name :=
        "inverter_phase_total_active_net_power_instantaneous_kw".data,
      device_id := id_temp, device_type := "inverter".data } ]

/-- The rounded total-phase-voltage value computed at line 981:
`round(phase_voltage_sum / phase_count * sqrt(phase_count), 1)`. -/
noncomputable def invTV (s : RawStatic) (d : RawDynamic) : ℚ :=
  pyRound1R
    ((((phaseLoop (deviceId s.nodeStatic.Id ("inv".data)) d.Phases).vsum :
        ℚ) : ℝ) /
      (((phaseLoop (deviceId s.nodeStatic.Id ("inv".data))
        d.Phases).count : ℕ) : ℝ) *
      Real.sqrt (((phaseLoop (deviceId s.nodeStatic.Id ("inv".data))
        d.Phases).count : ℕ) : ℝ))

/-- `_convert_responses_to_inverter_entities` (redbacktech_client.py lines
847-994).  On success returns the appended entities together with the values
stored into `_redback_temp_voltage` and `_redback_site_load`;
`Except.error` models the `ZeroDivisionError` of line 981 when no phase
carries a voltage. -/
noncomputable def convertInverter (s : RawStatic) (d : RawDynamic) :
    Except PyErr (List Entity × ℚ × ℚ) :=
  let id_temp := deviceId s.nodeStatic.Id ("inv".data)
  let acc := phaseLoop id_temp d.Phases
  if acc.count = 0 then .error .zeroDivisionError
  else
    .ok (inverterBaseEntities s d ++ pvEntities id_temp 1 d.PVs ++
      acc.entities ++
      inverterAggEntities id_temp (invTV s d) acc.csum acc.expsum acc.impsum
        acc.netsum,
      invTV s d, acc.netsum + d.PvPowerInstantaneouskW)

/-- Value of the entity carrying a given name, the last append winning, as
in the id-keyed dictionaries that `get_redback_data` builds from the entity
list. -/
def lookupVal (name : List Char) (es : List Entity) : Option EVal :=
  (es.reverse.find? (fun e => e.entity_name == name)).map Entity.value

/-- The fixed battery entities appended at redbacktech_client.py lines
1003-1067 (before the per-module loop), including the two nullable energy
counters with their kWh → MWh conversion and the SoC-derived stored/usable
energies.  Line 1037 tags `timestamp_utc` with device_type `'inverter'`
while keeping the battery device id; the quirk is reproduced verbatim. -/
def batteryFixedEntities (s : RawStatic) (d : RawDynamic) (soc : RawSoC) :
    List Entity :=
  let id_temp := deviceId s.nodeStatic.Id ("bat".data)
  let dt := "battery".data
  [ { value := .num (soc.MinSoC0to1 * 100),
      entity_name := "min_soc_0_to_1".data, device_id := id_temp,
      device_type := dt },
    { value := .num (soc.MinOffgridSoC0to1 * 100),
      entity_name := "min_Offgrid_soc_0_to_1".data, device_id := id_temp,
      device_type := dt },
    { value := s.siteStatic.Location.Latitude,
      entity_name := "latitude".data, device_id := id_temp,
      device_type := dt },
    { value := s.siteStatic.Location.Longitude,
      entity_name := "longitude".data, device_id := id_temp,
      device_type := dt },
    { value := s.siteStatic.SiteDetails.BatteryMaxChargePowerkW,
      entity_name := "battery_max_charge_power_kw".data,
      device_id := id_temp, device_type := dt },
    { value := s.siteStatic.SiteDetails.BatteryMaxDischargePowerkW,
      entity_name := "battery_max_discharge_power_kw".data,
      device_id := id_temp, device_type := dt },
    { value := .num s.siteStatic.SiteDetails.BatteryCapacitykWh,
      entity_name := "battery_capacity_kwh".data, device_id := id_temp,
      device_type := dt },
    { value := s.siteStatic.SiteDetails.UsableBatteryCapacitykWh,
      entity_name := "battery_usable_capacity_kwh".data,
      device_id := id_temp, device_type := dt },
    { value := s.siteStatic.SiteDetails.SystemType,
      entity_name := "system_type".data, device_id := id_temp,
      device_type := dt },
    { value := s.siteStatic.CommissioningDate,
      entity_name := "commissioning_date".data, device_id := id_temp,
      device_type := dt },
    { value := s.siteStatic.Id, entity_name := "site_id".data,
      device_id := id_temp, device_type := dt },
    { value := s.siteStatic.SiteType,
      entity_name := "inverter_site_type".data, device_id := id_temp,
      device_type := dt },
    { value := .str s.nodeStatic.ModelName,
      entity_name := "model_name".data, device_id := id_temp,
      device_type := dt },
    { value := .num (s.nodeStatic.BatteryCount : ℚ),
      entity_name := "battery_count".data, device_id := id_temp,
      device_type := dt },
    { value := s.nodeStatic.SoftwareVersion,
      entity_name := "software_version".data, device_id := id_temp,
      device_type := dt },
    { value := s.nodeStatic.FirmwareVersion,
      entity_name := "firmware_version".data, device_id := id_temp,
      device_type := dt },
    { value := .str s.nodeStatic.Id,
      entity_name := "inverter_serial_number".data, device_id := id_temp,
      device_type := dt },
    { value := .time d.TimestampUtc, entity_name := "timestamp_utc".data,
      device_id := id_temp, device_type := "inverter".data },
    { value := .num (d.BatterySoCInstantaneous0to1 * 100),
      entity_name := "battery_soc_instantaneous_0to1".data,
      device_id := id_temp, device_type := dt },
    { value := .num d.BatteryPowerNegativeIsChargingkW,
      entity_name := "battery_power_negative_is_charging_kw".data,
      device_id := id_temp, device_type := dt },
    { value :=
        match d.BatteryChargeAllTimeEnergykWh with
        | some v => .num (v / 1000)
        | Option.none => .none,
      entity_name := "battery_charge_all_time_energy_mwh".data,
      device_id := id_temp, device_type := dt },
    { value :=
        match d.BatteryDischargeAllTimeEnergykWh with
        | some v => .num (v / 1000)
        | Option.none => .none,
      entity_name := "battery_discharge_all_time_energy_mwh".data,
      device_id := id_temp, device_type := dt },
    { value := d.Status, entity_name := "status".data,
      device_id := id_temp, device_type := dt },
    { value := d.Battery.CurrentNegativeIsChargingA,
      entity_name := "battery_current_negative_is_charging_a".data,
      device_id := id_temp, device_type := dt },
    { value := d.Battery.VoltageV, entity_name := "battery_voltage_v".data,
      device_id := id_temp, device_type := dt },
    { value := d.Battery.VoltageType,
      entity_name := "battery_voltage_type".data, device_id := id_temp,
      device_type := dt },
    { value := d.Battery.NumberOfModules,
      entity_name := "battery_no_of_modules".data, device_id := id_temp,
      device_type := dt },
    { value := .num (s.siteStatic.SiteDetails.BatteryCapacitykWh *
        d.BatterySoCInstantaneous0to1),
      entity_name := "battery_currently_stored_kwh".data,
      device_id := id_temp, device_type := dt },
    { value := .num (pyRound 2 (s.siteStatic.SiteDetails.BatteryCapacitykWh *
        (d.BatterySoCInstantaneous0to1 - soc.MinSoC0to1))),
      entity_name := "battery_currently_usable_kwh".data,
      device_id := id_temp, device_type := dt } ]

/-- The per-module battery entities (redbacktech_client.py lines
1068-1099): the loop runs over the static `BatteryModels` list with
`batteryId` starting at 1, indexes the dynamic `Modules` list at
`batteryId - 1` (`IndexError` when it is shorter), and carries the last
non-`Unknown` model name forward.  The two accumulator sums of lines
1079/1090 are dead code in the source and are not modelled. -/
def batteryModuleEntities (id_temp : List Char)
    (modules : List RawBatteryModule) (batteryId : Nat)
    (batteryName : List Char) :
    List (List Char) → Except PyErr (List Entity)
  | [] => .ok []
  | battery :: rest =>
    let bn := if battery ≠ "Unknown".data then battery else batteryName
    match modules[batteryId - 1]? with
    | Option.none => .error .indexError
    | some md =>
      match batteryModuleEntities id_temp modules (batteryId + 1) bn rest with
      | .error e => .error e
      | .ok es =>
        .ok ({ value := .str bn,
               entity_name := "battery_".data ++ natRepr batteryId ++
                 "_model".data,
               device_id := id_temp, device_type := "battery".data } ::
          { value := .num md.CurrentNegativeIsChargingA,
            entity_name := "battery_".data ++ natRepr batteryId ++
              "_current_negative_is_charging_a".data,
            device_id := id_temp, device_type := "battery".data } ::
          { value := md.VoltageV,
            entity_name := "battery_".data ++ natRepr batteryId ++
              "_voltage_v".data,
            device_id := id_temp, device_type := "battery".data } ::
          { value := .num md.PowerNegativeIsChargingkW,
            entity_name := "battery_".data ++ natRepr batteryId ++
              "_power_negative_is_charging_kw".data,
            device_id := id_temp, device_type := "battery".data } ::
          { value := .num (md.SoC0To1 * 100),
            entity_name := "battery_".data ++ natRepr batteryId ++
              "_soc_0to1".data,
            device_id := id_temp, device_type := "battery".data } :: es)

/-- The per-cabinet battery entities (redbacktech_client.py lines
1104-1111), `cabinetId` starting at 1. -/
def batteryCabinetEntities (id_temp : List Char) (cabinetId : Nat) :
    List RawCabinet → List Entity
  | [] => []
  | cab :: rest =>
    { value := cab.TemperatureC,
      entity_name := "battery_cabinet_".data ++ natRepr cabinetId ++
        "_temperature_c".data,
      device_id := id_temp, device_type := "battery".data } ::
    { value := cab.FanState,
      entity_name := "battery_cabinet_".data ++ natRepr cabinetId ++
        "_fan_state".data,
      device_id := id_temp, device_type := "battery".data } ::
    batteryCabinetEntities id_temp (cabinetId + 1) rest

/-- `_convert_responses_to_battery_entities` (redbacktech_client.py lines
996-1114).  `tempVoltage` is the value read from `_redback_temp_voltage`
(stored by the inverter conversion for the same serial).  On success
returns the appended entities and the battery power added to the site load
at line 1113.  Errors model the `IndexError` of a short module list and the
`ZeroDivisionError` of line 1101; note the derived charging-current entity
of line 1101 reuses the name `battery_current_negative_is_charging_a`
already appended at line 1055. -/
def convertBattery (s : RawStatic) (d : RawDynamic) (soc : RawSoC)
    (tempVoltage : ℚ) : Except PyErr (List Entity × ℚ) :=
  let id_temp := deviceId s.nodeStatic.Id ("bat".data)
  match batteryModuleEntities id_temp d.Battery.Modules 1 ("Unknown".data)
      s.nodeStatic.BatteryModels with
  | .error e => .error e
  | .ok modEs =>
    if tempVoltage = 0 then .error .zeroDivisionError
    else
      .ok (batteryFixedEntities s d soc ++ modEs ++
        [ { value := .num (pyRound 1 (d.BatteryPowerNegativeIsChargingkW *
              1000 / tempVoltage)),
            entity_name := "battery_current_negative_is_charging_a".data,
            device_id := id_temp, device_type := "battery".data } ] ++
        batteryCabinetEntities id_temp 1 d.Battery.Cabinets,
        d.BatteryPowerNegativeIsChargingkW)

/-- The duplicated battery entity name. -/
def dupName : List Char := "battery_current_negative_is_charging_a".data

/-- The names of the 29 fixed battery entities, in append order. -/
def batteryFixedNames : List (List Char) :=
  [ "min_soc_0_to_1".data, "min_Offgrid_soc_0_to_1".data, "latitude".data,
    "longitude".data, "battery_max_charge_power_kw".data,
    "battery_max_discharge_power_kw".data, "battery_capacity_kwh".data,
    "battery_usable_capacity_kwh".data, "system_type".data,
    "commissioning_date".data, "site_id".data, "inverter_site_type".data,
    "model_name".data, "battery_count".data, "software_version".data,
    "firmware_version".data, "inverter_serial_number".data,
    "timestamp_utc".data, "battery_soc_instantaneous_0to1".data,
    "battery_power_negative_is_charging_kw".data,
    "battery_charge_all_time_energy_mwh".data,
    "battery_discharge_all_time_energy_mwh".data, "status".data,
    "battery_current_negative_is_charging_a".data,
    "battery_voltage_v".data, "battery_voltage_type".data,
    "battery_no_of_modules".data, "battery_currently_stored_kwh".data,
    "battery_currently_usable_kwh".data ]

/-- The five per-module entity names for one `batteryId`. -/
def moduleNames (i : Nat) : List (List Char) :=
  [ "battery_".data ++ natRepr i ++ "_model".data,
    "battery_".data ++ natRepr i ++ "_current_negative_is_charging_a".data,
    "battery_".data ++ natRepr i ++ "_voltage_v".data,
    "battery_".data ++ natRepr i ++ "_power_negative_is_charging_kw".data,
    "battery_".data ++ natRepr i ++ "_soc_0to1".data ]

/-- The two per-cabinet entity names for one `cabinetId`. -/
def cabinetNames (i : Nat) : List (List Char) :=
  [ "battery_cabinet_".data ++ natRepr i ++ "_temperature_c".data,
    "battery_cabinet_".data ++ natRepr i ++ "_fan_state".data ]

/-- The full battery entity-name sequence produced for `n` modules and `c`
cabinets. -/
def batteryNameList (n c : Nat) : List (List Char) :=
  batteryFixedNames ++
    (List.range n).flatMap (fun k => moduleNames (k + 1)) ++
    [dupName] ++
    (List.range c).flatMap (fun k => cabinetNames (k + 1))

/-- Classification of battery entity names used to separate the fixed names
from the digit-indexed module and cabinet families. -/
inductive NameTag where
  | plain (s : List Char)
  | modTag (i : Nat) (suffix : List Char)
  | cabTag (i : Nat) (suffix : List Char)
  deriving DecidableEq, Repr

/-- Strip a literal leading pattern from a string. -/
def dropPref : List Char → List Char → Option (List Char)
  | [], s => some s
  | _ :: _, [] => Option.none
  | p :: ps, c :: cs => if p = c then dropPref ps cs else Option.none

/-- Classify a battery entity name by its literal prefix and the digit run
that follows. -/
def classifyName (s : List Char) : NameTag :=
  match dropPref ("battery_cabinet_".data) s with
  | some r =>
    if (r.takeWhile Char.isDigit).isEmpty then .plain s
    else .cabTag (digitsVal (r.takeWhile Char.isDigit))
      (r.dropWhile Char.isDigit)
  | Option.none =>
    match dropPref ("battery_".data) s with
    | some r =>
      if (r.takeWhile Char.isDigit).isEmpty then .plain s
      else .modTag (digitsVal (r.takeWhile Char.isDigit))
        (r.dropWhile Char.isDigit)
    | Option.none => .plain s

/-- A concrete minimum-SoC payload. -/
def sampleSoC : RawSoC :=
  { MinSoC0to1 := (1 : ℚ) / 10, MinOffgridSoC0to1 := (1 : ℚ) / 5 }

/-- A phase at 230 V used by the concrete aggregate computations. -/
def samplePhase (idc : List Char) : RawPhase :=
  { Id := idc
    VoltageInstantaneousV := some 230
    CurrentInstantaneousA := 5
    ActiveExportedPowerInstantaneouskW := 0
    ActiveImportedPowerInstantaneouskW := (1 : ℚ) / 2
    PowerFactorInstantaneousMinus1to1 := .num 1 }

/-- A concrete dynamic payload with three 230 V phases. -/
def sampleDyn3 : RawDynamic :=
  { TimestampUtc := 1700000000
    FrequencyInstantaneousHz := .num 50
    PvPowerInstantaneouskW := 3
    InverterTemperatureC := .num 40
    PvAllTimeEnergykWh := some 1500
    ExportAllTimeEnergykWh := Option.none
    ImportAllTimeEnergykWh := some 200
    LoadAllTimeEnergykWh := Option.none
    Status := .str "OK".data
    PowerModeInverterMode := .str "Auto".data
    PowerModePowerW := .num 0
    PVs := [{ CurrentA := .num 1, VoltageV := .num 300, PowerkW := .num 1 }]
    Phases := [samplePhase ("a".data), samplePhase ("b".data),
               samplePhase ("c".data)]
    BatterySoCInstantaneous0to1 := (4 : ℚ) / 5
    BatteryPowerNegativeIsChargingkW := -1
    BatteryChargeAllTimeEnergykWh := some 1500
    BatteryDischargeAllTimeEnergykWh := Option.none
    Battery :=
      { CurrentNegativeIsChargingA := .num 0
        VoltageV := .num 52
        VoltageType := .str "DC".data
        NumberOfModules := .num 1
        Modules := [{ CurrentNegativeIsChargingA := 0, VoltageV := .num 52,
                      PowerNegativeIsChargingkW := 0,
                      SoC0To1 := (4 : ℚ) / 5 }]
        Cabinets := [{ TemperatureC := .num 25,
                       FanState := .str "Off".data }] } }

/-- A concrete static payload paired with `sampleDyn3`. -/
def sampleStatic : RawStatic :=
  { nodeStatic :=
      { Id := "RB221500112233".data
        ModelName := "ST10000".data
        BatteryCount := 1
        SoftwareVersion := .str "2.18".data
        FirmwareVersion := .str "1.0".data
        BatteryModels := ["ModelX".data] }
    siteStatic :=
      { Location := { Latitude := .num 0, Longitude := .num 0 }
        ConnType := .str "Wifi".data
        ApprovedCapacityW := .num 10000
        SiteDetails :=
          { GenerationHardLimitVA := .none
            GenerationSoftLimitVA := .none
            ExportHardLimitkW := .none
            ExportSoftLimitkW := .none
            SiteExportLimitkW := .none
            PanelModel := .str "P1".data
            PanelSizekW := .num 10
            SystemType := .str "Hybrid".data
            InverterMaxExportPowerkW := .num 10
            InverterMaxImportPowerkW := .num 10
            BatteryMaxChargePowerkW := .num 5
            BatteryMaxDischargePowerkW := .num 5
            BatteryCapacitykWh := 10
            UsableBatteryCapacitykWh := .num 9 }
        CommissioningDate := .str "2022-01-01".data
        NMI := .none
        Id := .str "site1".data
        SiteType := .str "Hybrid".data } }

/-- First-match lookup in an association list used as a Python dict. -/
def lookupAssoc {β : Type} (m : List (List Char × β)) (k : List Char) :
    Option β :=
  (m.find? (fun p => p.1 == k)).map Prod.snd

/-- Python dict assignment: the new binding shadows any previous one. -/
def dictSet {β : Type} (m : List (List Char × β)) (k : List Char) (v : β) :
    List (List Char × β) :=
  (k, v) :: m

/-- The value passed as `site_load_data` to `_add_additional_entities`:
the caller at redbacktech_client.py line 478 passes the whole
`_redback_site_load` dictionary, while line 1120 expects a number. -/
inductive SiteLoadArg where
  | num (q : ℚ)
  | dict (m : List (List Char × ℚ))
  deriving DecidableEq, Repr

/-- Python `round(x, 3)` as called at line 1120: defined on numbers,
`TypeError` on a dictionary (dict has no `__round__`). -/
def pyRound3Arg : SiteLoadArg → Except PyErr ℚ
  | .num q => .ok (pyRound 3 q)
  | .dict _ => .error .typeError

/-- `_add_additional_entities` (redbacktech_client.py lines 1116-1149):
rounds the received `site_load_data` to three decimals for the site-load
entity, then appends the five scheduled-annotation entities taken from the
selected schedule (or the null/zero/`Auto` defaults).  Direct indexing of
`_redback_schedule_selected` raises `KeyError` when the device id is
absent. -/
def addAdditionalEntities (site_load_data : SiteLoadArg) (s : RawStatic)
    (schedule_selected : List (List Char × Option (List Char)))
    (schedules : List SchedEntity) : Except PyErr (List Entity) := do
  let id_temp := deviceId s.nodeStatic.Id ("inv".data)
  let value_temp ← pyRound3Arg site_load_data
  let siteLoadE : Entity :=
    { value := .num value_temp
      entity_name := "inverter_site_load_instantaneous_kw".data
      device_id := id_temp, device_type := "inverter".data }
  match lookupAssoc schedule_selected id_temp with
  | Option.none => .error .keyError
  | some sel =>
    match sel with
    | some selId =>
      .ok (siteLoadE ::
        (schedules.filter (fun sch => sch.schedule_id == selId)).flatMap
          (fun sch =>
            [ { value := .time sch.start_time_utc
                entity_name := "scheduled_start_time".data
                device_id := id_temp, device_type := "inverter".data },
              { value := .time sch.end_time
                entity_name := "scheduled_finish_time".data
                device_id := id_temp, device_type := "inverter".data },
              { value := .num (sch.duration : ℚ)
                entity_name := "scheduled_duration".data
                device_id := id_temp, device_type := "inverter".data },
              { value := .num (sch.power_w : ℚ)
                entity_name := "scheduled_power_w".data
                device_id := id_temp, device_type := "inverter".data },
              { value := .str sch.inverter_mode
                entity_name := "scheduled_inverter_mode".data
                device_id := id_temp, device_type := "inverter".data } ]))
    | Option.none =>
      .ok [ siteLoadE,
        { value := .none, entity_name := "scheduled_start_time".data
          device_id := id_temp, device_type := "inverter".data },
        { value := .none, entity_name := "scheduled_finish_time".data
          device_id := id_temp, device_type := "inverter".data },
        { value := .num 0, entity_name := "scheduled_duration".data
          device_id := id_temp, device_type := "inverter".data },
        { value := .num 0, entity_name := "scheduled_power_w".data
          device_id := id_temp, device_type := "inverter".data },
        { value := .str ("Auto".data)
          entity_name := "scheduled_inverter_mode".data
          device_id := id_temp, device_type := "inverter".data } ]

/-- The mutable per-device control-setting record
(`_inverter_control_settings`).  `start_time` is optional because the
initialization at line 803 omits the key. -/
structure ControlSetting where
  power_setting_watts : ℚ
  power_setting_duration : ℚ
  power_setting_mode : List Char
  start_time : Option Int
  deriving DecidableEq, Repr

/-- The device-info record of `_create_device_info_inverter` /
`_create_device_info_battery` (lines 746-773). -/
structure DeviceInfoRec where
  identifiers : List Char
  name : List Char
  model : List Char
  sw_version : EVal
  hw_version : EVal
  serial_number : List Char
  deriving DecidableEq, Repr

/-- A select entity (`_redback_selects`), carrying an options list. -/
structure SelectEntity where
  value : EVal
  entity_name : List Char
  device_id : List Char
  device_type : List Char
  type_set : List Char
  options : List (List Char)
  deriving DecidableEq, Repr

/-- `_check_device_info_refresh` (redbacktech_client.py lines 674-687):
the bare `True` expressions of lines 683 and 685 are statements without
effect, so the function returns `None` on those branches and `False` on the
remaining one — it never returns `True`. -/
def checkDeviceInfoRefresh (refresh_time : Option Int) (now : Int) :
    Option Bool :=
  match refresh_time with
  | Option.none => Option.none
  | some t => if t - now < 10 then Option.none else some false

/-- Python `not x` applied to the `None`-or-`False` result above. -/
def pyNotOpt : Option Bool → Bool
  | Option.none => true
  | some b => !b

/-- `_create_device_info_inverter` (lines 746-759). -/
def createDeviceInfoInverter (s : RawStatic) : DeviceInfoRec :=
  { identifiers := deviceId s.nodeStatic.Id ("inv".data)
    name := s.nodeStatic.ModelName ++ " - inverter".data
    model := s.nodeStatic.ModelName
    sw_version := s.nodeStatic.SoftwareVersion
    hw_version := s.nodeStatic.FirmwareVersion
    serial_number := s.nodeStatic.Id }

/-- `_create_device_info_battery` (lines 761-773). -/
def createDeviceInfoBattery (s : RawStatic) : DeviceInfoRec :=
  { identifiers := deviceId s.nodeStatic.Id ("bat".data)
    name := s.nodeStatic.ModelName ++ " - battery".data
    model := s.nodeStatic.ModelName
    sw_version := s.nodeStatic.SoftwareVersion
    hw_version := s.nodeStatic.FirmwareVersion
    serial_number := s.nodeStatic.Id }

/-- The full lazy initialization of a device's control settings (lines 781
and 791): mode `Auto`, zero watts and duration, `start_time = now`. -/
def defaultControl (now : Int) : ControlSetting :=
  { power_setting_watts := 0, power_setting_duration := 0
    power_setting_mode := "Auto".data, start_time := some now }

/-- `_create_number_entities` (lines 785-796): lazily initializes the
control settings, then appends the duration and watts numbers. -/
def createNumberEntities (s : RawStatic) (now : Int)
    (ctrl : List (List Char × ControlSetting)) :
    List (List Char × ControlSetting) × List Entity :=
  let id_temp := deviceId s.nodeStatic.Id ("inv".data)
  let ctrl' :=
    if (lookupAssoc ctrl id_temp).isNone then
      dictSet ctrl id_temp (defaultControl now)
    else ctrl
  let cs := (lookupAssoc ctrl' id_temp).getD (defaultControl now)
  (ctrl',
   [ { value := .num cs.power_setting_duration
       entity_name := "power_setting_duration".data
       device_id := id_temp, device_type := "inverter".data
       type_set := some ("number.string".data) },
     { value := .num cs.power_setting_watts
       entity_name := "power_setting_watts".data
       device_id := id_temp, device_type := "inverter".data
       type_set := some ("number.string".data) } ])

/-- `_create_select_entities` (lines 798-817): its lazy initialization at
line 803 omits `start_time`; the schedule-id selector's options are the
schedule ids known for this device and the value is the current selection
(default `None`).  The dead `else` branch of line 814 (the schedules list
is never `None`) is not modelled. -/
def createSelectEntities (inverterModes : List (List Char)) (s : RawStatic)
    (ctrl : List (List Char × ControlSetting))
    (selMap : List (List Char × Option (List Char)))
    (schedules : List SchedEntity) :
    List (List Char × ControlSetting) ×
      List (List Char × Option (List Char)) × List SelectEntity :=
  let id_temp := deviceId s.nodeStatic.Id ("inv".data)
  let ctrl' :=
    if (lookupAssoc ctrl id_temp).isNone then
      dictSet ctrl id_temp
        { power_setting_watts := 0, power_setting_duration := 0
          power_setting_mode := "Auto".data, start_time := Option.none }
    else ctrl
  let cs := (lookupAssoc ctrl' id_temp).getD (defaultControl 0)
  let e1 : SelectEntity :=
    { value := .str cs.power_setting_mode
      entity_name := "power_setting_mode".data
      device_id := id_temp, device_type := "inverter".data
      type_set := "select.string".data, options := inverterModes }
  let selMap' :=
    if (lookupAssoc selMap id_temp).isNone then
      dictSet selMap id_temp Option.none
    else selMap
  let schedule_options :=
    (schedules.filter (fun sch => sch.device_id == id_temp)).map
      (fun sch => sch.schedule_id)
  let selVal := ((lookupAssoc selMap' id_temp).getD Option.none)
  let e2 : SelectEntity :=
    { value := match selVal with
               | some sid => .str sid
               | Option.none => .none
      entity_name := "schedule_id_selected".data
      device_id := id_temp, device_type := "inverter".data
      type_set := "select.string".data, options := schedule_options }
  (ctrl', selMap', [e1, e2])

/-- `_create_datetime_entities` (lines 775-783): lazily initializes the
control settings and appends the schedule-create start time; reading a
missing `start_time` key raises `KeyError`. -/
def createDatetimeEntities (s : RawStatic) (now : Int)
    (ctrl : List (List Char × ControlSetting)) :
    List (List Char × ControlSetting) × Except PyErr Entity :=
  let id_temp := deviceId s.nodeStatic.Id ("inv".data)
  let ctrl' :=
    if (lookupAssoc ctrl id_temp).isNone then
      dictSet ctrl id_temp (defaultControl now)
    else ctrl
  let cs := (lookupAssoc ctrl' id_temp).getD (defaultControl now)
  (ctrl',
   match cs.start_time with
   | some t =>
     .ok { value := .time t
           entity_name := "schedule_create_start_time".data
           device_id := id_temp, device_type := "inverter".data
           type_set := some ("datetime.datetime".data) }
   | Option.none => .error .keyError)

/-- The client fields mutated by `_create_device_info` and read by the
per-serial pipeline. -/
structure ClientState where
  serial_numbers : List (List Char)
  device_info : List DeviceInfoRec
  entities : List Entity
  schedules : List SchedEntity
  numbers : List Entity
  selects : List SelectEntity
  schedule_datetime : List Entity
  site_load : List (List Char × ℚ)
  inverter_control_settings : List (List Char × ControlSetting)
  schedule_selected : List (List Char × Option (List Char))
  temp_voltage : List (List Char × ℚ)
  device_info_refresh_time : Option Int

/-- The vendor responses available to one refresh: the serial list from
`_get_inverter_list` and the per-serial payloads. -/
structure FetchOracle where
  serials : List (List Char)
  staticOf : List Char → RawStatic
  dynamicOf : List Char → RawDynamic
  schedulesOf : List Char → List RawSchedule
  socOf : List Char → RawSoC

/-- The battery branch of the per-serial loop (lines 471-475): reads the
stored phase voltage, converts the battery entities, adds the battery
power to the site load, and appends the battery device-info record. -/
def batteryBranch (oracle : FetchOracle) (response1 : RawStatic)
    (response2 : RawDynamic) (sid : List Char) (st : ClientState) :
    Except PyErr ClientState :=
  match lookupAssoc st.temp_voltage sid with
  | Option.none => .error .keyError
  | some tvStored =>
    match convertBattery response1 response2
        (oracle.socOf response1.nodeStatic.Id) tvStored with
    | .error e => .error e
    | .ok (batEs, sdelta) =>
      match lookupAssoc st.site_load sid with
      | Option.none => .error .keyError
      | some sload0 =>
        .ok { st with
          entities := st.entities ++ batEs
          site_load := dictSet st.site_load sid (sload0 + sdelta)
          device_info := st.device_info ++
            [createDeviceInfoBattery response1] }

/-- The battery-count test of line 471 dispatching into the battery
branch. -/
def batteryDispatch (oracle : FetchOracle) (response1 : RawStatic)
    (response2 : RawDynamic) (sid : List Char) (st : ClientState) :
    Except PyErr ClientState :=
  if response1.nodeStatic.BatteryCount > 0 then
    batteryBranch oracle response1 response2 sid st
  else .ok st

/-- The body of the per-serial loop of `_create_device_info` (lines
459-479): inverter conversion, schedule conversion, number/select
creation, the optional battery branch, datetime creation, the
additional-entities call — which receives the whole `_redback_site_load`
dictionary — and the inverter device-info record. -/
noncomputable def serialStep (inverterModes : List (List Char)) (now : Int)
    (oracle : FetchOracle) (st : ClientState) (serial_number : List Char) :
    Except PyErr ClientState :=
  let response1 := oracle.staticOf serial_number
  let response2 := oracle.dynamicOf serial_number
  let response3 := oracle.schedulesOf serial_number
  let st0 := { st with site_load := dictSet st.site_load serial_number 0 }
  match convertInverter response1 response2 with
  | .error e => .error e
  | .ok (invEs, tv, sload) =>
    let sid := response1.nodeStatic.Id
    let st1 := { st0 with
      entities := st0.entities ++ invEs
      temp_voltage := dictSet st0.temp_voltage sid tv
      site_load := dictSet st0.site_load sid sload }
    match convertSchedules response3 with
    | Option.none => .error .valueError
    | some schedEs =>
      let st2 := { st1 with schedules := st1.schedules ++ schedEs }
      let numR := createNumberEntities response1 now
        st2.inverter_control_settings
      let st3 := { st2 with inverter_control_settings := numR.1
                            numbers := st2.numbers ++ numR.2 }
      let selR := createSelectEntities inverterModes response1
        st3.inverter_control_settings st3.schedule_selected st3.schedules
      let st4 := { st3 with inverter_control_settings := selR.1
                            schedule_selected := selR.2.1
                            selects := st3.selects ++ selR.2.2 }
      match batteryDispatch oracle response1 response2 sid st4 with
      | .error e => .error e
      | .ok st5 =>
        let dtR := createDatetimeEntities response1 now
          st5.inverter_control_settings
        match dtR.2 with
        | .error e => .error e
        | .ok dtE =>
          let st6 := { st5 with
            inverter_control_settings := dtR.1
            schedule_datetime := st5.schedule_datetime ++ [dtE] }
          match addAdditionalEntities (.dict st6.site_load) response1
              st6.schedule_selected st6.schedules with
          | .error e => .error e
          | .ok addEs =>
            let st7 := { st6 with entities := st6.entities ++ addEs }
            .ok { st7 with device_info := st7.device_info ++
              [createDeviceInfoInverter response1] }

/-- The list-clearing block of `_create_device_info` (lines 451-456),
which runs unconditionally on every call. -/
def clearRebuilt (st : ClientState) : ClientState :=
  { st with device_info := [], entities := [], schedules := []
            numbers := [], selects := [], schedule_datetime := [] }

/-- `_create_device_info` (redbacktech_client.py lines 446-481): refetches
the serial list whenever `not _check_device_info_refresh()` is truthy
(always, since that check never returns `True`), unconditionally clears
the six rebuilt collections, runs the per-serial pipeline, and stamps the
next refresh time. -/
noncomputable def create_device_info (inverterModes : List (List Char))
    (deviceInfoRefresh : Int) (now : Int) (oracle : FetchOracle)
    (st : ClientState) : Except PyErr ClientState := do
  let st :=
    if pyNotOpt (checkDeviceInfoRefresh st.device_info_refresh_time now)
    then { st with serial_numbers := oracle.serials }
    else st
  let st := clearRebuilt st
  let st ← st.serial_numbers.foldlM (serialStep inverterModes now oracle) st
  Except.ok { st with
    device_info_refresh_time := some (now + deviceInfoRefresh) }

/-- The client state as `__init__` leaves it. -/
def initialState : ClientState :=
  { serial_numbers := [], device_info := [], entities := [], schedules := []
    numbers := [], selects := [], schedule_datetime := [], site_load := []
    inverter_control_settings := [], schedule_selected := []
    temp_voltage := [], device_info_refresh_time := Option.none }

/-- An oracle for one inverter serial. -/
def oracleOne : FetchOracle :=
  { serials := ["RB221500112233".data]
    staticOf := fun _ => sampleStatic
    dynamicOf := fun _ => sampleDyn3
    schedulesOf := fun _ => [sampleSchedule]
    socOf := fun _ => sampleSoC }

/-- An oracle reporting no inverters. -/
def oracleEmpty : FetchOracle :=
  { serials := []
    staticOf := fun _ => sampleStatic
    dynamicOf := fun _ => sampleDyn3
    schedulesOf := fun _ => []
    socOf := fun _ => sampleSoC }

/-- A sentinel entity for the stale-state scenario. -/
def staleEntity : Entity :=
  { value := .num 1, entity_name := "stale".data
    device_id := "xxxxinv".data, device_type := "inverter".data }

/-- A state holding previously built collections and a device-info stamp
far in the future (the freshness window has not elapsed at `now = 0`). -/
def staleState : ClientState :=
  { initialState with
    entities := [staleEntity]
    device_info := [createDeviceInfoInverter sampleStatic]
    device_info_refresh_time := some 1000000 }

/-- Whether an `Except` computation succeeded. -/
def exceptIsOk {ε α : Type} : Except ε α → Bool
  | .ok _ => true
  | .error _ => false

/-- Consume the next portal HTTP outcome from the supplied list; an
exhausted list stands for a transport failure. -/
def takeCall (calls : List (Except PyErr (List Char))) :
    Except PyErr (List Char × List (Except PyErr (List Char))) :=
  match calls with
  | [] => .error .valueError
  | c :: rest => c.map (fun t => (t, rest))

/-- `_portal_login` (redbacktech_client.py lines 159-176) over the
supplied HTTP outcomes: opens a fresh portal session, GETs the login page,
extracts the anti-forgery token (`find1`; `AttributeError` when the form
is missing), then POSTs the credentials.  The session opened here is never
closed by this function. -/
def portalLoginSeq (calls : List (Except PyErr (List Char)))
    (find1 : List Char → Option (List Char)) :
    Except PyErr (List Char × List (Except PyErr (List Char))) := do
  let (html, calls) ← takeCall calls
  let tok ←
    match find1 html with
    | some t => Except.ok t
    | Option.none => Except.error PyErr.attributeError
  let (_, calls) ← takeCall calls
  Except.ok (tok, calls)

/-- `set_inverter_mode_portal` (lines 274-314) reduced to its session and
HTTP behaviour: portal login, configure-page GET, second anti-forgery
extraction (`find2`), mode-set POST, then `self._session2.close()` on the
single success path.  The boolean records whether the session opened by
`_portal_login` was closed before returning; an exception propagates past
the close call, which is not protected by any `try`/`finally`. -/
def setInverterModePortal (calls : List (Except PyErr (List Char)))
    (find1 find2 : List Char → Option (List Char)) :
    Except PyErr Unit × Bool :=
  match portalLoginSeq calls find1 with
  | .error e => (.error e, false)
  | .ok (_, calls) =>
    match takeCall calls with
    | .error e => (.error e, false)
    | .ok (html, calls) =>
      match find2 html with
      | Option.none => (.error .attributeError, false)
      | some _ =>
        match takeCall calls with
        | .error e => (.error e, false)
        | .ok _ => (.ok (), true)

/-- `test_portal_connection` (lines 185-193): clears the token, runs the
portal login, then closes the session on both the `True` and the `False`
return paths; a login exception propagates before any close. -/
def testPortalConnection (calls : List (Except PyErr (List Char)))
    (find1 : List Char → Option (List Char)) :
    Except PyErr Bool × Bool :=
  match portalLoginSeq calls find1 with
  | .error e => (.error e, false)
  | .ok (tok, _) =>
    if (some tok).isSome then (.ok true, true) else (.ok false, true)

/-- Actions issued by the schedule-deletion operations, in program
order. -/
inductive ApiAction where
  | setSelectedNone (device : List Char)
  | apiDelete (serial : List Char) (schedule : List Char)
  deriving DecidableEq, Repr

/-- `delete_inverter_schedule` (redbacktech_client.py lines 195-210):
resets the device's selected schedule to `None` first, then resolves the
serial number from the device-info records and issues the vendor delete.
`.error` models the missing `self.serial_number` attribute when the device
id is unknown to a fresh client.  The `_check_token` call between the two
steps is not part of the modelled trace. -/
def deleteInverterSchedule (device_info : List DeviceInfoRec)
    (selected : List (List Char × Option (List Char)))
    (device_id schedule_id : List Char) :
    Except PyErr
      (List (List Char × Option (List Char)) × List ApiAction) :=
  let selected' := dictSet selected device_id Option.none
  match device_info.find? (fun dev => dev.identifiers == device_id) with
  | Option.none => .error .attributeError
  | some dev =>
    .ok (selected',
      [.setSelectedNone device_id, .apiDelete dev.serial_number schedule_id])

/-- `delete_all_inverter_schedules` (lines 213-230): resets the device's
selected schedule to `None` first, then deletes every known schedule whose
serial number matches the device. -/
def deleteAllInverterSchedules (device_info : List DeviceInfoRec)
    (selected : List (List Char × Option (List Char)))
    (schedules : List SchedEntity) (device_id : List Char) :
    Except PyErr
      (List (List Char × Option (List Char)) × List ApiAction) :=
  let selected' := dictSet selected device_id Option.none
  match device_info.find? (fun dev => dev.identifiers == device_id) with
  | Option.none => .error .attributeError
  | some dev =>
    .ok (selected',
      .setSelectedNone device_id ::
        (schedules.filter
          (fun sch => sch.serial_number == dev.serial_number)).map
          (fun sch => .apiDelete dev.serial_number sch.schedule_id))

/- ------------------------------------------------------------------ -/
/- Theorems -/
/- ------------------------------------------------------------------ -/

theorem digit_ne_dot_colon {c : Char} (h : c.isDigit = true) :
    c ≠ '.' ∧ c ≠ ':' := by
  constructor <;> rintro rfl <;> exact absurd h (by decide)

theorem pySplit_ne_nil (sep : Char) (l : List Char) : pySplit sep l ≠ [] := by
  cases l with
  | nil => simp [pySplit]
  | cons c rest =>
    simp only [pySplit]
    split <;> simp

theorem pySplit_no_sep (sep : Char) (l : List Char)
    (h : ∀ c ∈ l, c ≠ sep) : pySplit sep l = [l] := by
  induction l with
  | nil => rfl
  | cons c rest ih =>
    have hc : c ≠ sep := h c (by simp)
    have hr : pySplit sep rest = [rest] := ih (fun x hx => h x (by simp [hx]))
    simp [pySplit, hr, hc]

theorem pySplit_append (sep : Char) (a b : List Char)
    (h : ∀ c ∈ a, c ≠ sep) :
    pySplit sep (a ++ sep :: b) = a :: pySplit sep b := by
  induction a with
  | nil => simp [pySplit]
  | cons x a' ih =>
    have hx : x ≠ sep := h x (by simp)
    have hr := ih (fun c hc => h c (by simp [hc]))
    simp [pySplit, hr, hx]

theorem foldl_digits (init : Nat) (l : List Char) :
    l.foldl (fun a c => a * 10 + digVal c) init =
      init * 10 ^ l.length + l.foldl (fun a c => a * 10 + digVal c) 0 := by
  induction l generalizing init with
  | nil => simp
  | cons c rest ih =>
    rw [List.foldl_cons, List.foldl_cons, ih (init * 10 + digVal c),
      ih (0 * 10 + digVal c), List.length_cons]
    ring

theorem digitsVal_from (init : Nat) (l : List Char) :
    l.foldl (fun a c => a * 10 + digVal c) init =
      init * 10 ^ l.length + digitsVal l :=
  foldl_digits init l

theorem digitsVal_cons (c : Char) (l : List Char) :
    digitsVal (c :: l) = digVal c * 10 ^ l.length + digitsVal l := by
  rw [digitsVal, List.foldl_cons, digitsVal_from]
  ring_nf

theorem digitsVal_append (a b : List Char) :
    digitsVal (a ++ b) = digitsVal a * 10 ^ b.length + digitsVal b := by
  rw [digitsVal, List.foldl_append, digitsVal_from]
  rfl

theorem natReprAux_spec (fuel n : Nat) (h : n < fuel) :
    (natReprAux fuel n).all Char.isDigit = true ∧
      natReprAux fuel n ≠ [] ∧ digitsVal (natReprAux fuel n) = n := by
  induction fuel generalizing n with
  | zero => omega
  | succ fuel ih =>
    by_cases hn : n < 10
    · have hchar : (Char.ofNat (48 + n)).isDigit = true ∧
          digVal (Char.ofNat (48 + n)) = n := by
        interval_cases n <;> exact ⟨by decide, by decide⟩
      refine ⟨?_, ?_, ?_⟩
      · simp [natReprAux, hn, hchar.1]
      · simp [natReprAux, hn]
      · simp [natReprAux, hn, digitsVal_cons, digitsVal, hchar.2]
    · have hdiv : n / 10 < fuel := by
        have h1 : n / 10 < n := Nat.div_lt_self (by omega) (by omega)
        omega
      obtain ⟨h1, h2, h3⟩ := ih (n / 10) hdiv
      have hm : n % 10 < 10 := Nat.mod_lt _ (by omega)
      have hchar : (Char.ofNat (48 + n % 10)).isDigit = true ∧
          digVal (Char.ofNat (48 + n % 10)) = n % 10 := by
        set m := n % 10 with hmdef
        clear_value m
        interval_cases m <;> exact ⟨by decide, by decide⟩
      refine ⟨?_, ?_, ?_⟩
      · simp only [natReprAux, if_neg hn, List.all_append, h1,
          Bool.true_and, List.all_cons, List.all_nil, Bool.and_true, hchar.1]
      · simp [natReprAux, hn]
      · simp only [natReprAux, if_neg hn]
        rw [digitsVal_append, h3, digitsVal_cons]
        simp [digitsVal, hchar.2]
        omega

theorem natRepr_spec (n : Nat) :
    (natRepr n).all Char.isDigit = true ∧
      natRepr n ≠ [] ∧ digitsVal (natRepr n) = n :=
  natReprAux_spec (n + 1) n (by omega)

theorem isDigits_natRepr (n : Nat) : isDigits (natRepr n) = true := by
  obtain ⟨h1, h2, _⟩ := natRepr_spec n
  simp [isDigits, h1, List.isEmpty_iff, h2]

theorem pyInt_natRepr (n : Nat) : pyInt (natRepr n) = some n := by
  rw [pyInt, if_pos (isDigits_natRepr n), (natRepr_spec n).2.2]

theorem pyInt_of_isDigits {l : List Char} (h : isDigits l = true) :
    pyInt l = some (digitsVal l) := by
  rw [pyInt, if_pos h]

theorem isDigits_mem_isDigit {l : List Char} (h : isDigits l = true)
    {c : Char} (hc : c ∈ l) : c.isDigit = true := by
  rw [isDigits, Bool.and_eq_true, List.all_eq_true] at h
  exact h.2 c hc

/-- Core parsing fact: on a `D.HH:MM:SS`-shaped string the duration parser
returns `days*1440 + hours*60 + minutes`. -/
theorem parseDurationMinutes_dhms (dcs hcs mcs scs : List Char)
    (hd : isDigits dcs = true) (hh : isDigits hcs = true)
    (hm : isDigits mcs = true) (hs : isDigits scs = true) :
    parseDurationMinutes (dcs ++ '.' :: (hcs ++ ':' :: (mcs ++ ':' :: scs))) =
      some (digitsVal dcs * 1440 + digitsVal hcs * 60 + digitsVal mcs) := by
  set rest := hcs ++ ':' :: (mcs ++ ':' :: scs) with hrest
  have hmem : '.' ∈ dcs ++ '.' :: rest := by simp
  have hnodot : ∀ c ∈ dcs, c ≠ '.' :=
    fun c hc => (digit_ne_dot_colon (isDigits_mem_isDigit hd hc)).1
  have hrestnodot : ∀ c ∈ rest, c ≠ '.' := by
    intro c hc
    rw [hrest] at hc
    simp only [List.mem_append, List.mem_cons] at hc
    rcases hc with h1 | h1 | h1 | h1 | h1
    · exact (digit_ne_dot_colon (isDigits_mem_isDigit hh h1)).1
    · rw [h1]; decide
    · exact (digit_ne_dot_colon (isDigits_mem_isDigit hm h1)).1
    · rw [h1]; decide
    · exact (digit_ne_dot_colon (isDigits_mem_isDigit hs h1)).1
  have hsplit1 : pySplit '.' (dcs ++ '.' :: rest) = dcs :: pySplit '.' rest :=
    pySplit_append '.' dcs rest hnodot
  have hsplit2 : pySplit '.' rest = [rest] := pySplit_no_sep '.' rest hrestnodot
  have hnocolon : ∀ c ∈ hcs, c ≠ ':' :=
    fun c hc => (digit_ne_dot_colon (isDigits_mem_isDigit hh hc)).2
  have hnocolon2 : ∀ c ∈ mcs, c ≠ ':' :=
    fun c hc => (digit_ne_dot_colon (isDigits_mem_isDigit hm hc)).2
  have hnocolon3 : ∀ c ∈ scs, c ≠ ':' :=
    fun c hc => (digit_ne_dot_colon (isDigits_mem_isDigit hs hc)).2
  have hsplit3 : pySplit ':' rest = hcs :: mcs :: [scs] := by
    rw [hrest, pySplit_append ':' hcs _ hnocolon,
      pySplit_append ':' mcs _ hnocolon2, pySplit_no_sep ':' scs hnocolon3]
  rw [parseDurationMinutes]
  rw [if_pos hmem]
  simp only [hsplit1, hsplit2, List.getElem?_cons_zero, List.getElem?_cons_succ,
    Option.pure_def, Option.bind_eq_bind, Option.some_bind,
    pyInt_of_isDigits hd, hsplit3, pyInt_of_isDigits hh, pyInt_of_isDigits hm]
  congr 1
  ring

/-- Core parsing fact: on an `HH:MM:SS`-shaped string the duration parser
returns `hours*60 + minutes`. -/
theorem parseDurationMinutes_hms (hcs mcs scs : List Char)
    (hh : isDigits hcs = true) (hm : isDigits mcs = true)
    (hs : isDigits scs = true) :
    parseDurationMinutes (hcs ++ ':' :: (mcs ++ ':' :: scs)) =
      some (digitsVal hcs * 60 + digitsVal mcs) := by
  have hnodot : ¬ ('.' ∈ hcs ++ ':' :: (mcs ++ ':' :: scs)) := by
    intro hmem
    simp only [List.mem_append, List.mem_cons] at hmem
    rcases hmem with h1 | h1 | h1 | h1 | h1
    · exact (digit_ne_dot_colon (isDigits_mem_isDigit hh h1)).1 rfl
    · exact absurd h1.symm (by decide)
    · exact (digit_ne_dot_colon (isDigits_mem_isDigit hm h1)).1 rfl
    · exact absurd h1.symm (by decide)
    · exact (digit_ne_dot_colon (isDigits_mem_isDigit hs h1)).1 rfl
  have hnocolon : ∀ c ∈ hcs, c ≠ ':' :=
    fun c hc => (digit_ne_dot_colon (isDigits_mem_isDigit hh hc)).2
  have hnocolon2 : ∀ c ∈ mcs, c ≠ ':' :=
    fun c hc => (digit_ne_dot_colon (isDigits_mem_isDigit hm hc)).2
  have hnocolon3 : ∀ c ∈ scs, c ≠ ':' :=
    fun c hc => (digit_ne_dot_colon (isDigits_mem_isDigit hs hc)).2
  have hsplit : pySplit ':' (hcs ++ ':' :: (mcs ++ ':' :: scs)) =
      hcs :: mcs :: [scs] := by
    rw [pySplit_append ':' hcs _ hnocolon,
      pySplit_append ':' mcs _ hnocolon2, pySplit_no_sep ':' scs hnocolon3]
  rw [parseDurationMinutes]
  rw [if_neg hnodot]
  simp [hsplit, pyInt_of_isDigits hh, pyInt_of_isDigits hm]

theorem convertOneSchedule_eq (id_temp : List Char) (sch : RawSchedule)
    (d : Nat) (h : parseDurationMinutes sch.Duration = some d) :
    convertOneSchedule id_temp sch =
      some { schedule_id := sch.ScheduleId
             serial_number := sch.SerialNumber
             siteid := sch.SiteId
             start_time_utc := sch.StartTimeUtc
             end_time := addMinutes sch.StartTimeUtc d
             duration := d
             inverter_mode := sch.InverterMode
             power_w := sch.ArgumentInWatts
             device_id := id_temp
             device_type := "inverter".data } := by
  rw [convertOneSchedule, h]
  rfl

/-- C2: for every vendor schedule whose `Duration` string has the form
`D.HH:MM:SS` or `HH:MM:SS`, schedule normalization produces a duration in
total minutes equal to `days*1440 + hours*60 + minutes` (so `"0.02:15:00"`
yields `135` and `"01:05:00"` yields `65`), and produces `end_time` equal to
the parsed `StartTimeUtc` plus that many minutes. -/
theorem schedule_duration_minutes_and_end_time :
    (∀ (id_temp : List Char) (sch : RawSchedule) (dcs hcs mcs scs : List Char),
      isDigits dcs = true → isDigits hcs = true → isDigits mcs = true →
      isDigits scs = true →
      sch.Duration = dcs ++ '.' :: (hcs ++ ':' :: (mcs ++ ':' :: scs)) →
      ∃ e, convertOneSchedule id_temp sch = some e ∧
        e.duration = digitsVal dcs * 1440 + digitsVal hcs * 60 + digitsVal mcs ∧
        e.start_time_utc = sch.StartTimeUtc ∧
        e.end_time = addMinutes sch.StartTimeUtc e.duration) ∧
    (∀ (id_temp : List Char) (sch : RawSchedule) (hcs mcs scs : List Char),
      isDigits hcs = true → isDigits mcs = true → isDigits scs = true →
      sch.Duration = hcs ++ ':' :: (mcs ++ ':' :: scs) →
      ∃ e, convertOneSchedule id_temp sch = some e ∧
        e.duration = digitsVal hcs * 60 + digitsVal mcs ∧
        e.start_time_utc = sch.StartTimeUtc ∧
        e.end_time = addMinutes sch.StartTimeUtc e.duration) ∧
    parseDurationMinutes ("0.02:15:00".data) = some 135 ∧
    parseDurationMinutes ("01:05:00".data) = some 65 := by
  refine ⟨?_, ?_, by decide, by decide⟩
  · intro id_temp sch dcs hcs mcs scs hd hh hm hs hdur
    have hp : parseDurationMinutes sch.Duration =
        some (digitsVal dcs * 1440 + digitsVal hcs * 60 + digitsVal mcs) := by
      rw [hdur]
      exact parseDurationMinutes_dhms dcs hcs mcs scs hd hh hm hs
    exact ⟨_, convertOneSchedule_eq id_temp sch _ hp, rfl, rfl, rfl⟩
  · intro id_temp sch hcs mcs scs hh hm hs hdur
    have hp : parseDurationMinutes sch.Duration =
        some (digitsVal hcs * 60 + digitsVal mcs) := by
      rw [hdur]
      exact parseDurationMinutes_hms hcs mcs scs hh hm hs
    exact ⟨_, convertOneSchedule_eq id_temp sch _ hp, rfl, rfl, rfl⟩

theorem schedule_duration_minutes_witness :
    ∃ e, convertOneSchedule ("2233inv".data) sampleSchedule = some e ∧
      e.duration = 135 ∧ e.end_time = 1700000000 + 60 * 135 := by
  obtain ⟨e, h1, h2, h3, h4⟩ :=
    schedule_duration_minutes_and_end_time.1 ("2233inv".data) sampleSchedule
      ("0".data) ("02".data) ("15".data) ("00".data)
      (by decide) (by decide) (by decide) (by decide) (by decide)
  refine ⟨e, h1, ?_, ?_⟩
  · rw [h2]; decide
  · rw [h4, h2, addMinutes]
    norm_num
    decide

/-- Counterexample to C5 as stated: the schedule-create encoder renders
1500 minutes as `1.25:00:00` (days computed, but hours not reduced modulo a
day), which the schedule parser reads back as 2940 minutes. -/
theorem schedule_roundtrip_cex :
    parseDurationMinutes (encodeDuration 1500) = some 2940 ∧
      (2940 : Nat) ≠ 1500 := by
  constructor
  · decide
  · decide

theorem lastTwo_pad (n : Nat) (h : n < 100) :
    isDigits (lastTwo ('0' :: '0' :: natRepr n)) = true ∧
      digitsVal (lastTwo ('0' :: '0' :: natRepr n)) = n := by
  by_cases hn : n < 10
  · have : natRepr n = [Char.ofNat (48 + n)] := by
      rw [natRepr, natReprAux, if_pos hn]
    rw [this]
    have hchar : (Char.ofNat (48 + n)).isDigit = true ∧
        digVal (Char.ofNat (48 + n)) = n := by
      interval_cases n <;> exact ⟨by decide, by decide⟩
    have hz : digVal '0' = 0 := by decide
    constructor
    · simp [lastTwo, isDigits, hchar.1]
    · simp [lastTwo, digitsVal_cons, digitsVal, hchar.2, hz]
  · have hdiv : n / 10 < 10 := by omega
    have h10 : ¬ n < 10 := hn
    have hfuel : natReprAux n (n / 10) = [Char.ofNat (48 + n / 10)] := by
      have hpos : 0 < n := by omega
      cases n with
      | zero => omega
      | succ m => rw [natReprAux, if_pos hdiv]
    have : natRepr n =
        [Char.ofNat (48 + n / 10), Char.ofNat (48 + n % 10)] := by
      rw [natRepr, natReprAux, if_neg h10, hfuel]
      rfl
    rw [this]
    have hm : n % 10 < 10 := Nat.mod_lt _ (by omega)
    have hchar1 : (Char.ofNat (48 + n / 10)).isDigit = true ∧
        digVal (Char.ofNat (48 + n / 10)) = n / 10 := by
      set q := n / 10 with hq
      clear_value q
      interval_cases q <;> exact ⟨by decide, by decide⟩
    have hchar2 : (Char.ofNat (48 + n % 10)).isDigit = true ∧
        digVal (Char.ofNat (48 + n % 10)) = n % 10 := by
      set q := n % 10 with hq
      clear_value q
      interval_cases q <;> exact ⟨by decide, by decide⟩
    constructor
    · simp [lastTwo, isDigits, hchar1.1, hchar2.1]
    · simp [lastTwo, digitsVal_cons, digitsVal, hchar1.2, hchar2.2]
      omega

/-- C5 (amended): the `D.HH:MM:SS` string built by `set_inverter_schedule`
round-trips through the schedule-duration parser exactly for whole-minute
durations below one day (1440 minutes); the encoder fails to reduce hours
modulo 24 once a day is extracted, so longer durations do not round-trip. -/
theorem schedule_roundtrip_under_one_day (d : Nat) (h : d < 1440) :
    parseDurationMinutes (encodeDuration d) = some d := by
  have hdays : d / 1440 = 0 := Nat.div_eq_of_lt h
  have hhours : d / 60 < 100 := by omega
  have hmins : d - d / 60 * 60 < 100 := by omega
  obtain ⟨hh1, hh2⟩ := lastTwo_pad (d / 60) hhours
  obtain ⟨hm1, hm2⟩ := lastTwo_pad (d - d / 60 * 60) hmins
  have hzero : natRepr (d / 1440) = ['0'] := by rw [hdays]; rfl
  rw [encodeDuration]
  simp only [hzero]
  rw [parseDurationMinutes_dhms ['0'] _ _ ['0', '0'] (by decide) hh1 hm1
    (by decide)]
  rw [hh2, hm2]
  congr 1
  have : digitsVal ['0'] = 0 := by decide
  rw [this]
  omega

theorem schedule_roundtrip_witness :
    parseDurationMinutes (encodeDuration 135) = some 135 :=
  schedule_roundtrip_under_one_day 135 (by norm_num)

/-- C1: under the coupling maintained by the client (token and expiry are
set together by `_api_login` and start out both `None`), `_check_token`
logs in exactly when no token exists or the stored expiry minus the current
time is below 3600 s; `_api_login` stores `token_type + ' ' + access_token`
and expiry `now + expires_in`; a token expiring in 1800 s triggers re-login
and one expiring in 7200 s does not. -/
theorem token_check_policy :
    (∀ (token : Option (List Char)) (texp : Option Int) (now : Int),
      (token = none ↔ texp = none) → token ≠ some [] →
      ∃ b, check_token token texp now = .ok b ∧
        (b = true ↔ token = none ∨ ∃ e, texp = some e ∧ e - now < 3600)) ∧
    (∀ resp now,
      (api_login resp now).token =
        some (resp.token_type ++ ' ' :: resp.access_token) ∧
      (api_login resp now).token_expiration = some (now + resp.expires_in)) ∧
    (∀ (t : List Char) (now : Int), t ≠ [] →
      check_token (some t) (some (now + 1800)) now = .ok true) ∧
    (∀ (t : List Char) (now : Int), t ≠ [] →
      check_token (some t) (some (now + 7200)) now = .ok false) := by
  refine ⟨?_, fun resp now => ⟨rfl, rfl⟩, ?_, ?_⟩
  · intro token texp now hcouple hne
    rcases token with _ | s
    · have ht : texp = none := hcouple.mp rfl
      subst ht
      exact ⟨true, by simp [check_token, tokenOrExpirationIsNone], by simp⟩
    · have hs : s.isEmpty = false := by
        cases s with
        | nil => exact absurd rfl hne
        | cons a l => rfl
      rcases texp with _ | e
      · exact absurd (hcouple.mpr rfl) (by simp)
      · by_cases hlt : e - now < 3600
        · refine ⟨true, ?_, ?_⟩
          · simp [check_token, tokenOrExpirationIsNone, hs, hlt]
          · simp only [true_iff]
            exact Or.inr ⟨e, rfl, hlt⟩
        · refine ⟨false, ?_, ?_⟩
          · simp [check_token, tokenOrExpirationIsNone, hs, hlt]
          · simp [hlt]
  · intro t now ht
    have hs : t.isEmpty = false := by
      cases t with
      | nil => exact absurd rfl ht
      | cons a l => rfl
    have hlt : now + 1800 - now < 3600 := by omega
    simp [check_token, tokenOrExpirationIsNone, hs, hlt]
  · intro t now ht
    have hs : t.isEmpty = false := by
      cases t with
      | nil => exact absurd rfl ht
      | cons a l => rfl
    have hlt : ¬ (now + 7200 - now < 3600) := by omega
    simp [check_token, tokenOrExpirationIsNone, hs, hlt]

theorem token_check_policy_witness :
    check_token (some ("Bearer abc".data)) (some (0 + 1800)) 0 = .ok true :=
  token_check_policy.2.2.1 ("Bearer abc".data) 0 (by decide)

theorem phaseStep_count (id_temp : List Char) (acc : PhaseAcc)
    (p : RawPhase) :
    (phaseStep id_temp acc p).count =
      (match p.VoltageInstantaneousV with
       | some _ => acc.count + 1
       | Option.none => acc.count) := by
  cases hv : p.VoltageInstantaneousV <;> simp [phaseStep, hv]

theorem phaseStep_vsum (id_temp : List Char) (acc : PhaseAcc)
    (p : RawPhase) :
    (phaseStep id_temp acc p).vsum =
      (match p.VoltageInstantaneousV with
       | some v => acc.vsum + v
       | Option.none => acc.vsum) := by
  cases hv : p.VoltageInstantaneousV <;> simp [phaseStep, hv]

theorem phaseFold_counts (id_temp : List Char) (phases : List RawPhase)
    (acc : PhaseAcc) :
    (phases.foldl (phaseStep id_temp) acc).count =
      acc.count +
        (phases.filterMap (fun p => p.VoltageInstantaneousV)).length ∧
    (phases.foldl (phaseStep id_temp) acc).vsum =
      acc.vsum + (phases.filterMap (fun p => p.VoltageInstantaneousV)).sum := by
  induction phases generalizing acc with
  | nil => simp
  | cons p rest ih =>
    obtain ⟨ihc, ihv⟩ := ih (phaseStep id_temp acc p)
    rw [List.foldl_cons, List.filterMap_cons]
    cases hv : p.VoltageInstantaneousV with
    | none =>
      constructor
      · rw [ihc, phaseStep_count, hv]
      · rw [ihv, phaseStep_vsum, hv]
    | some v =>
      constructor
      · rw [ihc, phaseStep_count, hv]
        simp
        omega
      · rw [ihv, phaseStep_vsum, hv]
        simp
        ring

theorem lookupVal_append (name : List Char) (l₁ l₂ : List Entity) :
    lookupVal name (l₁ ++ l₂) =
      (lookupVal name l₂).or (lookupVal name l₁) := by
  rw [lookupVal, lookupVal, lookupVal, List.reverse_append,
    List.find?_append]
  cases hf : l₂.reverse.find? (fun e => e.entity_name == name) <;>
    simp [hf, Option.or]

theorem phaseLoop_count_eq (id_temp : List Char) (d : RawDynamic) :
    (phaseLoop id_temp d.Phases).count = (phaseVoltages d).length := by
  have h := (phaseFold_counts id_temp d.Phases ⟨0, 0, 0, 0, 0, 0, []⟩).1
  rw [phaseLoop, phaseVoltages, h]
  simp

theorem phaseLoop_vsum_eq (id_temp : List Char) (d : RawDynamic) :
    (phaseLoop id_temp d.Phases).vsum = (phaseVoltages d).sum := by
  have h := (phaseFold_counts id_temp d.Phases ⟨0, 0, 0, 0, 0, 0, []⟩).2
  rw [phaseLoop, phaseVoltages, h]
  simp

theorem invTV_eq_spec (s : RawStatic) (d : RawDynamic) :
    invTV s d = specTotalPhaseVoltage d := by
  rw [invTV, phaseLoop_count_eq, phaseLoop_vsum_eq, specTotalPhaseVoltage]

theorem convertInverter_ok (s : RawStatic) (d : RawDynamic)
    (h : (phaseLoop (deviceId s.nodeStatic.Id ("inv".data))
      d.Phases).count ≠ 0) :
    convertInverter s d = .ok
      (inverterBaseEntities s d ++
        pvEntities (deviceId s.nodeStatic.Id ("inv".data)) 1 d.PVs ++
        (phaseLoop (deviceId s.nodeStatic.Id ("inv".data))
          d.Phases).entities ++
        inverterAggEntities (deviceId s.nodeStatic.Id ("inv".data))
          (invTV s d)
          (phaseLoop (deviceId s.nodeStatic.Id ("inv".data)) d.Phases).csum
          (phaseLoop (deviceId s.nodeStatic.Id ("inv".data)) d.Phases).expsum
          (phaseLoop (deviceId s.nodeStatic.Id ("inv".data)) d.Phases).impsum
          (phaseLoop (deviceId s.nodeStatic.Id ("inv".data)) d.Phases).netsum,
        invTV s d,
        (phaseLoop (deviceId s.nodeStatic.Id ("inv".data)) d.Phases).netsum +
          d.PvPowerInstantaneouskW) := by
  rw [convertInverter]
  simp only [if_neg h]

theorem lookupVal_aggEntities (id_temp : List Char)
    (tv csum expsum impsum netsum : ℚ) :
    lookupVal ("inverter_phase_total_voltage_instantaneous_v".data)
      (inverterAggEntities id_temp tv csum expsum impsum netsum) =
      some (.num tv) := rfl

/-- C6: for every dynamic payload with at least one non-null phase voltage,
the inverter converter succeeds and its total-phase-voltage entity carries
`(sum of per-phase voltages / phase_count) * sqrt(phase_count)` rounded to
one decimal; for three 230 V phases that value is `398.4`. -/
theorem total_phase_voltage_aggregate :
    (∀ (s : RawStatic) (d : RawDynamic), phaseVoltages d ≠ [] →
      convertInverter s d = .ok
        (inverterBaseEntities s d ++
          pvEntities (deviceId s.nodeStatic.Id ("inv".data)) 1 d.PVs ++
          (phaseLoop (deviceId s.nodeStatic.Id ("inv".data))
            d.Phases).entities ++
          inverterAggEntities (deviceId s.nodeStatic.Id ("inv".data))
            (specTotalPhaseVoltage d)
            (phaseLoop (deviceId s.nodeStatic.Id ("inv".data)) d.Phases).csum
            (phaseLoop (deviceId s.nodeStatic.Id ("inv".data))
              d.Phases).expsum
            (phaseLoop (deviceId s.nodeStatic.Id ("inv".data))
              d.Phases).impsum
            (phaseLoop (deviceId s.nodeStatic.Id ("inv".data))
              d.Phases).netsum,
          specTotalPhaseVoltage d,
          (phaseLoop (deviceId s.nodeStatic.Id ("inv".data))
            d.Phases).netsum + d.PvPowerInstantaneouskW) ∧
      lookupVal ("inverter_phase_total_voltage_instantaneous_v".data)
        (inverterBaseEntities s d ++
          pvEntities (deviceId s.nodeStatic.Id ("inv".data)) 1 d.PVs ++
          (phaseLoop (deviceId s.nodeStatic.Id ("inv".data))
            d.Phases).entities ++
          inverterAggEntities (deviceId s.nodeStatic.Id ("inv".data))
            (specTotalPhaseVoltage d)
            (phaseLoop (deviceId s.nodeStatic.Id ("inv".data)) d.Phases).csum
            (phaseLoop (deviceId s.nodeStatic.Id ("inv".data))
              d.Phases).expsum
            (phaseLoop (deviceId s.nodeStatic.Id ("inv".data))
              d.Phases).impsum
            (phaseLoop (deviceId s.nodeStatic.Id ("inv".data))
              d.Phases).netsum) =
        some (.num (specTotalPhaseVoltage d))) ∧
    specTotalPhaseVoltage sampleDyn3 = 1992 / 5 := by
  constructor
  · intro s d hne
    have hne' : (phaseLoop (deviceId s.nodeStatic.Id ("inv".data))
        d.Phases).count ≠ 0 := by
      rw [phaseLoop_count_eq]
      simpa [List.length_eq_zero] using hne
    constructor
    · rw [← invTV_eq_spec]
      exact convertInverter_ok s d hne'
    · rw [lookupVal_append, lookupVal_append, lookupVal_append,
        lookupVal_aggEntities]
      rfl
  · have hpv : phaseVoltages sampleDyn3 = [230, 230, 230] := rfl
    rw [specTotalPhaseVoltage, hpv]
    have h1 : (([(230 : ℚ), 230, 230] : List ℚ).sum : ℚ) = 690 := by
      norm_num
    have h2 : (([(230 : ℚ), 230, 230] : List ℚ).length : ℕ) = 3 := rfl
    rw [h1, h2]
    have hs3 : Real.sqrt 3 ^ 2 = 3 := Real.sq_sqrt (by norm_num)
    have hpos : (0 : ℝ) ≤ Real.sqrt 3 := Real.sqrt_nonneg 3
    have harg : (((690 : ℚ) : ℝ) / (((3 : ℕ)) : ℝ) *
        Real.sqrt (((3 : ℕ)) : ℝ)) * 10 = 2300 * Real.sqrt 3 := by
      push_cast
      ring
    have hround : round ((((690 : ℚ) : ℝ) / (((3 : ℕ)) : ℝ) *
        Real.sqrt (((3 : ℕ)) : ℝ)) * 10) = 3984 := by
      rw [harg, round_eq]
      apply Int.floor_eq_iff.mpr
      constructor
      · push_cast
        nlinarith [hs3, hpos]
      · push_cast
        nlinarith [hs3, hpos, sq_nonneg (Real.sqrt 3 - 1.7325)]
    rw [pyRound1R, hround]
    norm_num

theorem total_phase_voltage_witness :
    convertInverter sampleStatic sampleDyn3 = .ok
      (inverterBaseEntities sampleStatic sampleDyn3 ++
        pvEntities (deviceId sampleStatic.nodeStatic.Id ("inv".data)) 1
          sampleDyn3.PVs ++
        (phaseLoop (deviceId sampleStatic.nodeStatic.Id ("inv".data))
          sampleDyn3.Phases).entities ++
        inverterAggEntities (deviceId sampleStatic.nodeStatic.Id ("inv".data))
          (specTotalPhaseVoltage sampleDyn3)
          (phaseLoop (deviceId sampleStatic.nodeStatic.Id ("inv".data))
            sampleDyn3.Phases).csum
          (phaseLoop (deviceId sampleStatic.nodeStatic.Id ("inv".data))
            sampleDyn3.Phases).expsum
          (phaseLoop (deviceId sampleStatic.nodeStatic.Id ("inv".data))
            sampleDyn3.Phases).impsum
          (phaseLoop (deviceId sampleStatic.nodeStatic.Id ("inv".data))
            sampleDyn3.Phases).netsum,
        specTotalPhaseVoltage sampleDyn3,
        (phaseLoop (deviceId sampleStatic.nodeStatic.Id ("inv".data))
          sampleDyn3.Phases).netsum + sampleDyn3.PvPowerInstantaneouskW) :=
  (total_phase_voltage_aggregate.1 sampleStatic sampleDyn3 (by decide)).1

/-- C7: each of the six all-time energy counters (inverter PV, export,
import, load; battery charge, discharge) converts a non-null kWh value `v`
to `v / 1000` MWh and passes a null value through as null; the conversion is
a total case split on the null test and raises nothing. -/
theorem energy_counters_kwh_to_mwh :
    (∀ (s : RawStatic) (d : RawDynamic),
      lookupVal ("pv_all_time_energy_mwh".data) (inverterBaseEntities s d) =
        some (optNum (d.PvAllTimeEnergykWh.map (fun v => v / 1000))) ∧
      lookupVal ("export_all_time_energy_mwh".data)
          (inverterBaseEntities s d) =
        some (optNum (d.ExportAllTimeEnergykWh.map (fun v => v / 1000))) ∧
      lookupVal ("import_all_time_energy_mwh".data)
          (inverterBaseEntities s d) =
        some (optNum (d.ImportAllTimeEnergykWh.map (fun v => v / 1000))) ∧
      lookupVal ("load_all_time_energy_mwh".data)
          (inverterBaseEntities s d) =
        some (optNum (d.LoadAllTimeEnergykWh.map (fun v => v / 1000)))) ∧
    (∀ (s : RawStatic) (d : RawDynamic) (soc : RawSoC),
      lookupVal ("battery_charge_all_time_energy_mwh".data)
          (batteryFixedEntities s d soc) =
        some (optNum (d.BatteryChargeAllTimeEnergykWh.map
          (fun v => v / 1000))) ∧
      lookupVal ("battery_discharge_all_time_energy_mwh".data)
          (batteryFixedEntities s d soc) =
        some (optNum (d.BatteryDischargeAllTimeEnergykWh.map
          (fun v => v / 1000)))) := by
  constructor
  · intro s d
    refine ⟨?_, ?_, ?_, ?_⟩
    · have h : lookupVal ("pv_all_time_energy_mwh".data)
          (inverterBaseEntities s d) =
          some (match d.PvAllTimeEnergykWh with
                | some v => EVal.num (v / 1000)
                | Option.none => EVal.none) := rfl
      rw [h]
      cases hv : d.PvAllTimeEnergykWh <;> rfl
    · have h : lookupVal ("export_all_time_energy_mwh".data)
          (inverterBaseEntities s d) =
          some (match d.ExportAllTimeEnergykWh with
                | some v => EVal.num (v / 1000)
                | Option.none => EVal.none) := rfl
      rw [h]
      cases hv : d.ExportAllTimeEnergykWh <;> rfl
    · have h : lookupVal ("import_all_time_energy_mwh".data)
          (inverterBaseEntities s d) =
          some (match d.ImportAllTimeEnergykWh with
                | some v => EVal.num (v / 1000)
                | Option.none => EVal.none) := rfl
      rw [h]
      cases hv : d.ImportAllTimeEnergykWh <;> rfl
    · have h : lookupVal ("load_all_time_energy_mwh".data)
          (inverterBaseEntities s d) =
          some (match d.LoadAllTimeEnergykWh with
                | some v => EVal.num (v / 1000)
                | Option.none => EVal.none) := rfl
      rw [h]
      cases hv : d.LoadAllTimeEnergykWh <;> rfl
  · intro s d soc
    constructor
    · have h : lookupVal ("battery_charge_all_time_energy_mwh".data)
          (batteryFixedEntities s d soc) =
          some (match d.BatteryChargeAllTimeEnergykWh with
                | some v => EVal.num (v / 1000)
                | Option.none => EVal.none) := rfl
      rw [h]
      cases hv : d.BatteryChargeAllTimeEnergykWh <;> rfl
    · have h : lookupVal ("battery_discharge_all_time_energy_mwh".data)
          (batteryFixedEntities s d soc) =
          some (match d.BatteryDischargeAllTimeEnergykWh with
                | some v => EVal.num (v / 1000)
                | Option.none => EVal.none) := rfl
      rw [h]
      cases hv : d.BatteryDischargeAllTimeEnergykWh <;> rfl

theorem dropPref_self_append (p s : List Char) :
    dropPref p (p ++ s) = some s := by
  induction p with
  | nil => rfl
  | cons c cs ih => simp [dropPref, ih]

theorem dropPref_append_left (p q s : List Char) :
    dropPref (p ++ q) (p ++ s) = dropPref q s := by
  induction p with
  | nil => rfl
  | cons c cs ih => simp [dropPref, ih]

theorem natRepr_head (n : Nat) :
    ∃ d ds, natRepr n = d :: ds ∧ d.isDigit = true := by
  obtain ⟨h1, h2, _⟩ := natRepr_spec n
  cases hr : natRepr n with
  | nil => exact absurd hr h2
  | cons d ds =>
    refine ⟨d, ds, rfl, ?_⟩
    rw [hr, List.all_cons, Bool.and_eq_true] at h1
    exact h1.1

theorem takeWhile_append_stop (p : Char → Bool) (a : List Char) (x : Char)
    (bs : List Char) (ha : ∀ c ∈ a, p c = true) (hx : p x = false) :
    (a ++ x :: bs).takeWhile p = a ∧ (a ++ x :: bs).dropWhile p = x :: bs := by
  induction a with
  | nil => simp [List.takeWhile_cons, List.dropWhile_cons, hx]
  | cons c cs ih =>
    have hc : p c = true := ha c (by simp)
    obtain ⟨h1, h2⟩ := ih (fun y hy => ha y (by simp [hy]))
    simp [List.takeWhile_cons, List.dropWhile_cons, hc, h1, h2]

theorem classify_module (i : Nat) (rest : List Char) :
    classifyName ("battery_".data ++ (natRepr i ++ '_' :: rest)) =
      .modTag i ('_' :: rest) := by
  obtain ⟨d, ds, hnd, hdig⟩ := natRepr_head i
  have hall : ∀ c ∈ natRepr i, Char.isDigit c = true := by
    intro c hc
    exact List.all_eq_true.mp (natRepr_spec i).1 c hc
  have hcab : dropPref ("battery_cabinet_".data)
      ("battery_".data ++ (natRepr i ++ '_' :: rest)) = Option.none := by
    have hsplit : ("battery_cabinet_".data : List Char) =
        "battery_".data ++ "cabinet_".data := by decide
    rw [hsplit, dropPref_append_left, hnd]
    have hdc : ¬ ('c' : Char) = d := by
      intro h
      rw [← h] at hdig
      exact absurd hdig (by decide)
    simp only [List.cons_append]
    show (if 'c' = d then
      dropPref ("abinet_".data) (ds ++ '_' :: rest) else Option.none) =
      Option.none
    rw [if_neg hdc]
  have hbat : dropPref ("battery_".data)
      ("battery_".data ++ (natRepr i ++ '_' :: rest)) =
      some (natRepr i ++ '_' :: rest) := dropPref_self_append _ _
  obtain ⟨htake, hdrop⟩ := takeWhile_append_stop Char.isDigit (natRepr i)
    '_' rest hall (by decide)
  have hne : (natRepr i).isEmpty = false := by
    rw [hnd]
    rfl
  unfold classifyName
  split
  · rename_i r heq
    rw [hcab] at heq
    exact absurd heq (by simp)
  · split
    · rename_i r heq2
      rw [hbat] at heq2
      have hr : r = natRepr i ++ '_' :: rest := by
        injection heq2 with h
        exact h.symm
      subst hr
      simp [htake, hdrop, hne, (natRepr_spec i).2.2]
    · rename_i heq2
      rw [hbat] at heq2
      exact absurd heq2 (by simp)

theorem classify_cabinet (i : Nat) (rest : List Char) :
    classifyName ("battery_cabinet_".data ++ (natRepr i ++ '_' :: rest)) =
      .cabTag i ('_' :: rest) := by
  have hall : ∀ c ∈ natRepr i, Char.isDigit c = true := by
    intro c hc
    exact List.all_eq_true.mp (natRepr_spec i).1 c hc
  have hcab : dropPref ("battery_cabinet_".data)
      ("battery_cabinet_".data ++ (natRepr i ++ '_' :: rest)) =
      some (natRepr i ++ '_' :: rest) := dropPref_self_append _ _
  obtain ⟨htake, hdrop⟩ := takeWhile_append_stop Char.isDigit (natRepr i)
    '_' rest hall (by decide)
  obtain ⟨d, ds, hnd, _⟩ := natRepr_head i
  have hne : (natRepr i).isEmpty = false := by
    rw [hnd]
    rfl
  unfold classifyName
  split
  · rename_i r heq
    rw [hcab] at heq
    have hr : r = natRepr i ++ '_' :: rest := by
      injection heq with h
      exact h.symm
    subst hr
    simp [htake, hdrop, hne, (natRepr_spec i).2.2]
  · rename_i heq
    rw [hcab] at heq
    exact absurd heq (by simp)

theorem classify_mem_moduleNames (i : Nat) (x : List Char)
    (hx : x ∈ moduleNames i) : ∃ suf, classifyName x = .modTag i suf := by
  simp only [moduleNames, List.mem_cons, List.not_mem_nil, or_false] at hx
  rcases hx with rfl | rfl | rfl | rfl | rfl
  · exact ⟨'_' :: "model".data, classify_module i ("model".data)⟩
  · exact ⟨'_' :: "current_negative_is_charging_a".data,
      classify_module i ("current_negative_is_charging_a".data)⟩
  · exact ⟨'_' :: "voltage_v".data, classify_module i ("voltage_v".data)⟩
  · exact ⟨'_' :: "power_negative_is_charging_kw".data,
      classify_module i ("power_negative_is_charging_kw".data)⟩
  · exact ⟨'_' :: "soc_0to1".data, classify_module i ("soc_0to1".data)⟩

theorem classify_mem_cabinetNames (i : Nat) (x : List Char)
    (hx : x ∈ cabinetNames i) : ∃ suf, classifyName x = .cabTag i suf := by
  simp only [cabinetNames, List.mem_cons, List.not_mem_nil, or_false] at hx
  rcases hx with rfl | rfl
  · exact ⟨'_' :: "temperature_c".data,
      classify_cabinet i ("temperature_c".data)⟩
  · exact ⟨'_' :: "fan_state".data, classify_cabinet i ("fan_state".data)⟩

theorem moduleNames_map_classify (i : Nat) :
    (moduleNames i).map classifyName =
      [ .modTag i ('_' :: "model".data),
        .modTag i ('_' :: "current_negative_is_charging_a".data),
        .modTag i ('_' :: "voltage_v".data),
        .modTag i ('_' :: "power_negative_is_charging_kw".data),
        .modTag i ('_' :: "soc_0to1".data) ] := by
  have e1 := classify_module i ("model".data)
  have e2 := classify_module i ("current_negative_is_charging_a".data)
  have e3 := classify_module i ("voltage_v".data)
  have e4 := classify_module i ("power_negative_is_charging_kw".data)
  have e5 := classify_module i ("soc_0to1".data)
  show [classifyName ("battery_".data ++ (natRepr i ++ '_' :: "model".data)),
    classifyName ("battery_".data ++
      (natRepr i ++ '_' :: "current_negative_is_charging_a".data)),
    classifyName ("battery_".data ++ (natRepr i ++ '_' :: "voltage_v".data)),
    classifyName ("battery_".data ++
      (natRepr i ++ '_' :: "power_negative_is_charging_kw".data)),
    classifyName ("battery_".data ++
      (natRepr i ++ '_' :: "soc_0to1".data))] = _
  rw [e1, e2, e3, e4, e5]

theorem cabinetNames_map_classify (i : Nat) :
    (cabinetNames i).map classifyName =
      [ .cabTag i ('_' :: "temperature_c".data),
        .cabTag i ('_' :: "fan_state".data) ] := by
  have e1 := classify_cabinet i ("temperature_c".data)
  have e2 := classify_cabinet i ("fan_state".data)
  show [classifyName ("battery_cabinet_".data ++
      (natRepr i ++ '_' :: "temperature_c".data)),
    classifyName ("battery_cabinet_".data ++
      (natRepr i ++ '_' :: "fan_state".data))] = _
  rw [e1, e2]

theorem moduleNames_nodup (i : Nat) : (moduleNames i).Nodup := by
  apply List.Nodup.of_map classifyName
  rw [moduleNames_map_classify]
  simp only [List.nodup_cons, List.mem_cons, List.not_mem_nil, or_false,
    List.nodup_nil, and_true, NameTag.modTag.injEq, not_or]
  decide

theorem cabinetNames_nodup (i : Nat) : (cabinetNames i).Nodup := by
  apply List.Nodup.of_map classifyName
  rw [cabinetNames_map_classify]
  simp only [List.nodup_cons, List.mem_cons, List.not_mem_nil, or_false,
    List.nodup_nil, and_true, NameTag.cabTag.injEq, not_or]
  decide

theorem count_le_one_of_nodup {α : Type} [BEq α] [LawfulBEq α]
    {l : List α} (h : l.Nodup) (a : α) : l.count a ≤ 1 := by
  induction l with
  | nil => simp
  | cons x xs ih =>
    rw [List.nodup_cons] at h
    rw [List.count_cons]
    by_cases hax : a = x
    · subst hax
      have hz : xs.count a = 0 := List.count_eq_zero.mpr h.1
      simp [hz]
    · have hxa : x ≠ a := fun h => hax h.symm
      have hb : (x == a) = false := by simp [hxa]
      rw [hb, if_neg (by decide)]
      have := ih h.2
      omega

theorem count_flatMap_le_one {α : Type} [BEq α] [LawfulBEq α] (l : List Nat)
    (f : Nat → List α) (b : α) (hnd : l.Nodup)
    (h1 : ∀ a ∈ l, (f a).count b ≤ 1)
    (h2 : ∀ a ∈ l, ∀ a' ∈ l, b ∈ f a → b ∈ f a' → a = a') :
    (l.flatMap f).count b ≤ 1 := by
  induction l with
  | nil => simp
  | cons x xs ih =>
    rw [List.flatMap_cons, List.count_append]
    rw [List.nodup_cons] at hnd
    by_cases hbx : b ∈ f x
    · have hz : (xs.flatMap f).count b = 0 := by
        rw [List.count_eq_zero]
        intro hmem
        obtain ⟨a', ha', hba'⟩ := List.mem_flatMap.mp hmem
        have hxa : x = a' := h2 x (by simp) a' (by simp [ha']) hbx hba'
        exact hnd.1 (hxa ▸ ha')
      rw [hz]
      have := h1 x (by simp)
      omega
    · have hz : (f x).count b = 0 := List.count_eq_zero.mpr hbx
      rw [hz]
      have := ih hnd.2 (fun a ha => h1 a (by simp [ha]))
        (fun a ha a' ha' => h2 a (by simp [ha]) a' (by simp [ha']))
      omega

theorem count_flatMap_zero {α : Type} [BEq α] [LawfulBEq α] (l : List Nat)
    (f : Nat → List α) (b : α) (h : ∀ a ∈ l, b ∉ f a) :
    (l.flatMap f).count b = 0 := by
  rw [List.count_eq_zero]
  intro hmem
  obtain ⟨a, ha, hba⟩ := List.mem_flatMap.mp hmem
  exact h a ha hba

theorem classify_fixed :
    ∀ x ∈ batteryFixedNames, classifyName x = .plain x := by decide

theorem classify_dup : classifyName dupName = .plain dupName := by decide

theorem batteryFixedNames_nodup : batteryFixedNames.Nodup := by decide

/-- The per-name count over the battery name sequence: the duplicated
charging-current name occurs twice, every other name at most once. -/
theorem batteryNameList_count (n c : Nat) :
    (batteryNameList n c).count dupName = 2 ∧
      ∀ nm, nm ≠ dupName → (batteryNameList n c).count nm ≤ 1 := by
  have hMnotmem : ∀ nm, classifyName nm = .plain nm →
      nm ∉ (List.range n).flatMap (fun k => moduleNames (k + 1)) := by
    intro nm hplain hmem
    obtain ⟨k, _, hk⟩ := List.mem_flatMap.mp hmem
    obtain ⟨suf, hsuf⟩ := classify_mem_moduleNames (k + 1) nm hk
    rw [hplain] at hsuf
    exact NameTag.noConfusion hsuf
  have hCnotmem : ∀ nm, classifyName nm = .plain nm →
      nm ∉ (List.range c).flatMap (fun k => cabinetNames (k + 1)) := by
    intro nm hplain hmem
    obtain ⟨k, _, hk⟩ := List.mem_flatMap.mp hmem
    obtain ⟨suf, hsuf⟩ := classify_mem_cabinetNames (k + 1) nm hk
    rw [hplain] at hsuf
    exact NameTag.noConfusion hsuf
  have hMle : ∀ nm, ((List.range n).flatMap
      (fun k => moduleNames (k + 1))).count nm ≤ 1 := by
    intro nm
    apply count_flatMap_le_one _ _ _ (List.nodup_range n)
    · intro a _
      exact count_le_one_of_nodup (moduleNames_nodup (a + 1)) nm
    · intro a _ a' _ hma hma'
      obtain ⟨suf, hsuf⟩ := classify_mem_moduleNames (a + 1) nm hma
      obtain ⟨suf', hsuf'⟩ := classify_mem_moduleNames (a' + 1) nm hma'
      rw [hsuf] at hsuf'
      have := (NameTag.modTag.injEq _ _ _ _).mp hsuf'
      omega
  have hCle : ∀ nm, ((List.range c).flatMap
      (fun k => cabinetNames (k + 1))).count nm ≤ 1 := by
    intro nm
    apply count_flatMap_le_one _ _ _ (List.nodup_range c)
    · intro a _
      exact count_le_one_of_nodup (cabinetNames_nodup (a + 1)) nm
    · intro a _ a' _ hma hma'
      obtain ⟨suf, hsuf⟩ := classify_mem_cabinetNames (a + 1) nm hma
      obtain ⟨suf', hsuf'⟩ := classify_mem_cabinetNames (a' + 1) nm hma'
      rw [hsuf] at hsuf'
      have := (NameTag.cabTag.injEq _ _ _ _).mp hsuf'
      omega
  constructor
  · rw [batteryNameList]
    rw [List.count_append, List.count_append, List.count_append]
    have hA : batteryFixedNames.count dupName = 1 := by decide
    have hM : ((List.range n).flatMap
        (fun k => moduleNames (k + 1))).count dupName = 0 :=
      List.count_eq_zero.mpr (hMnotmem dupName classify_dup)
    have hC : ((List.range c).flatMap
        (fun k => cabinetNames (k + 1))).count dupName = 0 :=
      List.count_eq_zero.mpr (hCnotmem dupName classify_dup)
    rw [hA, hM, hC]
    rfl
  · intro nm hne
    rw [batteryNameList]
    rw [List.count_append, List.count_append, List.count_append]
    have hDup : ([dupName] : List (List Char)).count nm = 0 := by
      rw [List.count_eq_zero]
      simp [hne]
    rw [hDup]
    by_cases hA : nm ∈ batteryFixedNames
    · have hplain := classify_fixed nm hA
      have h1 : batteryFixedNames.count nm ≤ 1 :=
        count_le_one_of_nodup batteryFixedNames_nodup nm
      have h2 : ((List.range n).flatMap
          (fun k => moduleNames (k + 1))).count nm = 0 :=
        List.count_eq_zero.mpr (hMnotmem nm hplain)
      have h3 : ((List.range c).flatMap
          (fun k => cabinetNames (k + 1))).count nm = 0 :=
        List.count_eq_zero.mpr (hCnotmem nm hplain)
      omega
    · have h1 : batteryFixedNames.count nm = 0 :=
        List.count_eq_zero.mpr hA
      by_cases hM : nm ∈ (List.range n).flatMap (fun k => moduleNames (k + 1))
      · obtain ⟨k, _, hk⟩ := List.mem_flatMap.mp hM
        obtain ⟨suf, hsuf⟩ := classify_mem_moduleNames (k + 1) nm hk
        have h3 : ((List.range c).flatMap
            (fun k => cabinetNames (k + 1))).count nm = 0 := by
          rw [List.count_eq_zero]
          intro hmem
          obtain ⟨k', _, hk'⟩ := List.mem_flatMap.mp hmem
          obtain ⟨suf', hsuf'⟩ := classify_mem_cabinetNames (k' + 1) nm hk'
          rw [hsuf] at hsuf'
          exact NameTag.noConfusion hsuf'
        have h2 := hMle nm
        omega
      · have h2 : ((List.range n).flatMap
            (fun k => moduleNames (k + 1))).count nm = 0 :=
          List.count_eq_zero.mpr hM
        have h3 := hCle nm
        omega

theorem range_flatMap_succ (g : Nat → List (List Char)) (n b : Nat) :
    (List.range (n + 1)).flatMap (fun k => g (b + k)) =
      g b ++ (List.range n).flatMap (fun k => g ((b + 1) + k)) := by
  simp only [List.range_succ_eq_map, List.flatMap_cons, List.flatMap_map,
    Nat.add_zero]
  have hfun : (fun (a : Nat) => g (b + a.succ)) =
      (fun k => g ((b + 1) + k)) := by
    funext a
    congr 1
    omega
  rw [hfun]

theorem batteryModuleEntities_names (id_temp : List Char)
    (modules : List RawBatteryModule) :
    ∀ (models : List (List Char)) (bid : Nat) (bn : List Char)
      (es : List Entity),
      batteryModuleEntities id_temp modules bid bn models = .ok es →
      es.map Entity.entity_name =
        (List.range models.length).flatMap (fun k => moduleNames (bid + k)) := by
  intro models
  induction models with
  | nil =>
    intro bid bn es h
    rw [batteryModuleEntities] at h
    have he : es = [] := by
      cases h
      rfl
    rw [he]
    simp
  | cons battery rest ih =>
    intro bid bn es h
    rw [batteryModuleEntities] at h
    cases hm : modules[bid - 1]? with
    | none =>
      rw [hm] at h
      exact absurd h (by simp)
    | some md =>
      rw [hm] at h
      cases hr : batteryModuleEntities id_temp modules (bid + 1)
          (if battery ≠ "Unknown".data then battery else bn) rest with
      | error e =>
        rw [hr] at h
        exact absurd h (by simp)
      | ok es' =>
        rw [hr] at h
        have he : es = _ := (Except.ok.inj h).symm
        rw [he]
        simp only [List.map_cons]
        rw [ih (bid + 1) _ es' hr]
        rw [List.length_cons, range_flatMap_succ]
        rfl

theorem batteryCabinetEntities_names (id_temp : List Char) :
    ∀ (cabs : List RawCabinet) (cid : Nat),
      (batteryCabinetEntities id_temp cid cabs).map Entity.entity_name =
        (List.range cabs.length).flatMap (fun k => cabinetNames (cid + k)) := by
  intro cabs
  induction cabs with
  | nil => intro cid; simp [batteryCabinetEntities]
  | cons cab rest ih =>
    intro cid
    rw [batteryCabinetEntities]
    simp only [List.map_cons]
    rw [ih (cid + 1)]
    rw [List.length_cons, range_flatMap_succ]
    rfl

theorem convertBattery_names (s : RawStatic) (d : RawDynamic) (soc : RawSoC)
    (tv : ℚ) (es : List Entity) (sl : ℚ)
    (h : convertBattery s d soc tv = .ok (es, sl)) :
    es.map Entity.entity_name =
      batteryNameList s.nodeStatic.BatteryModels.length
        d.Battery.Cabinets.length := by
  rw [convertBattery] at h
  split at h
  · exact absurd h (by simp)
  · rename_i modEs hm
    split at h
    · exact absurd h (by simp)
    · rename_i htv
      have he : es = _ := congrArg Prod.fst (Except.ok.inj h).symm
      rw [he]
      simp only [List.map_append]
      rw [batteryModuleEntities_names _ _ _ _ _ _ hm,
        batteryCabinetEntities_names]
      rw [batteryNameList]
      have h1 : (batteryFixedEntities s d soc).map Entity.entity_name =
          batteryFixedNames := rfl
      rw [h1]
      have hfun : (fun k => moduleNames (1 + k)) =
          (fun k => moduleNames (k + 1)) := by
        funext k
        congr 1
        omega
      have hfun2 : (fun k => cabinetNames (1 + k)) =
          (fun k => cabinetNames (k + 1)) := by
        funext k
        congr 1
        omega
      rw [hfun, hfun2]
      rfl

theorem map_eq_replicate_forall {α β : Type} (f : α → β) (l : List α)
    (n : ℕ) (v : β) (h : l.map f = List.replicate n v) :
    ∀ e ∈ l, f e = v := by
  intro e he
  have hm : f e ∈ l.map f := List.mem_map_of_mem f he
  rw [h] at hm
  exact List.eq_of_mem_replicate hm

theorem batteryModuleEntities_device_ids (id_temp : List Char)
    (modules : List RawBatteryModule) :
    ∀ (models : List (List Char)) (bid : Nat) (bn : List Char)
      (es : List Entity),
      batteryModuleEntities id_temp modules bid bn models = .ok es →
      ∀ e ∈ es, e.device_id = id_temp := by
  intro models
  induction models with
  | nil =>
    intro bid bn es h
    rw [batteryModuleEntities] at h
    have he : es = [] := by
      cases h
      rfl
    rw [he]
    simp
  | cons battery rest ih =>
    intro bid bn es h
    rw [batteryModuleEntities] at h
    cases hm : modules[bid - 1]? with
    | none =>
      rw [hm] at h
      exact absurd h (by simp)
    | some md =>
      rw [hm] at h
      cases hr : batteryModuleEntities id_temp modules (bid + 1)
          (if battery ≠ "Unknown".data then battery else bn) rest with
      | error e =>
        rw [hr] at h
        exact absurd h (by simp)
      | ok es' =>
        rw [hr] at h
        have he : es = _ := (Except.ok.inj h).symm
        rw [he]
        intro e he'
        simp only [List.mem_cons] at he'
        rcases he' with rfl | rfl | rfl | rfl | rfl | hmem
        · rfl
        · rfl
        · rfl
        · rfl
        · rfl
        · exact ih (bid + 1) _ es' hr e hmem

theorem batteryCabinetEntities_device_ids (id_temp : List Char) :
    ∀ (cabs : List RawCabinet) (cid : Nat),
      ∀ e ∈ batteryCabinetEntities id_temp cid cabs,
        e.device_id = id_temp := by
  intro cabs
  induction cabs with
  | nil => intro cid e he; simp [batteryCabinetEntities] at he
  | cons cab rest ih =>
    intro cid e he
    rw [batteryCabinetEntities] at he
    simp only [List.mem_cons] at he
    rcases he with rfl | rfl | hmem
    · rfl
    · rfl
    · exact ih (cid + 1) e hmem

/-- C4 (amended): all records appended by the battery normalizer carry the
battery device id, and no two of them share an entity name except
`battery_current_negative_is_charging_a`, which is appended twice (once as
the raw sensor of line 1055 and once as the derived charging current of
line 1101). -/
theorem battery_entity_names_unique_except_dup :
    ∀ (s : RawStatic) (d : RawDynamic) (soc : RawSoC) (tv : ℚ)
      (es : List Entity) (sl : ℚ),
      convertBattery s d soc tv = .ok (es, sl) →
      (∀ e ∈ es, e.device_id = deviceId s.nodeStatic.Id ("bat".data)) ∧
      (es.map Entity.entity_name).count dupName = 2 ∧
      ∀ nm, nm ≠ dupName → (es.map Entity.entity_name).count nm ≤ 1 := by
  intro s d soc tv es sl h
  have hnames := convertBattery_names s d soc tv es sl h
  refine ⟨?_, ?_, ?_⟩
  · rw [convertBattery] at h
    split at h
    · exact absurd h (by simp)
    · rename_i modEs hm
      split at h
      · exact absurd h (by simp)
      · rename_i htv
        have he : es = _ := congrArg Prod.fst (Except.ok.inj h).symm
        rw [he]
        intro e he'
        simp only [List.mem_append, List.mem_cons, List.not_mem_nil,
          or_false] at he'
        rcases he' with ((hfix | hmod) | hagg) | hcab
        · exact map_eq_replicate_forall Entity.device_id
            (batteryFixedEntities s d soc) 29
            (deviceId s.nodeStatic.Id ("bat".data)) rfl e hfix
        · exact batteryModuleEntities_device_ids _ _ _ _ _ _ hm e hmod
        · rw [hagg]
        · exact batteryCabinetEntities_device_ids _ _ _ e hcab
  · rw [hnames]
    exact (batteryNameList_count _ _).1
  · intro nm hne
    rw [hnames]
    exact (batteryNameList_count _ _).2 nm hne

/-- Counterexample to C4 as stated: a one-module, one-cabinet battery
payload yields an entity list in which the name
`battery_current_negative_is_charging_a` occurs twice for the battery
device. -/
theorem battery_entity_names_unique_cex :
    (convertBattery sampleStatic sampleDyn3 sampleSoC 230).toOption.map
      (fun r => (r.1.map Entity.entity_name).count dupName) = some 2 ∧
    (2 : ℕ) ≠ 1 := by
  constructor
  · decide
  · decide

theorem battery_entity_names_unique_witness :
    ∃ p, convertBattery sampleStatic sampleDyn3 sampleSoC 230 = .ok p ∧
      (p.1.map Entity.entity_name).count dupName = 2 ∧
      (p.1.map Entity.entity_name).count ("battery_voltage_v".data) ≤ 1 := by
  obtain ⟨p, hp⟩ := Option.isSome_iff_exists.mp
    (show (convertBattery sampleStatic sampleDyn3 sampleSoC
      230).toOption.isSome = true by decide)
  have hr : convertBattery sampleStatic sampleDyn3 sampleSoC 230 = .ok p := by
    cases hq : convertBattery sampleStatic sampleDyn3 sampleSoC 230 with
    | ok q =>
      rw [hq] at hp
      simp only [Except.toOption] at hp
      rw [Option.some.inj hp]
    | error e =>
      rw [hq] at hp
      simp [Except.toOption] at hp
  have hmain := battery_entity_names_unique_except_dup sampleStatic
    sampleDyn3 sampleSoC 230 p.1 p.2 (by rw [hr])
  exact ⟨p, hr, hmain.2.1, hmain.2.2 _ (by decide)⟩

theorem exceptBind_ok_inv {ε α β : Type} {x : Except ε α}
    {f : α → Except ε β} {b : β} (h : x >>= f = .ok b) :
    ∃ a, x = .ok a ∧ f a = .ok b := by
  cases x with
  | error e => exact Except.noConfusion h
  | ok a => exact ⟨a, rfl, h⟩

theorem addAdditionalEntities_dict_error (m : List (List Char × ℚ))
    (s : RawStatic) (sel : List (List Char × Option (List Char)))
    (scheds : List SchedEntity) :
    addAdditionalEntities (.dict m) s sel scheds = .error .typeError := rfl

theorem pyNot_check (rt : Option Int) (now : Int) :
    pyNotOpt (checkDeviceInfoRefresh rt now) = true := by
  cases rt with
  | none => rfl
  | some t =>
    rw [checkDeviceInfoRefresh]
    by_cases h : t - now < 10
    · rw [if_pos h]
      rfl
    · rw [if_neg h]
      rfl

theorem serialStep_not_ok (im : List (List Char)) (now : Int)
    (oracle : FetchOracle) (st : ClientState) (sn : List Char)
    (st' : ClientState) (h : serialStep im now oracle st sn = .ok st') :
    False := by
  rw [serialStep] at h
  split at h
  · simp at h
  · split at h
    · simp at h
    · dsimp only at h
      split at h
      · simp at h
      · split at h
        · simp at h
        · split at h
          · simp at h
          · rename_i addEs heq
            rw [addAdditionalEntities_dict_error] at heq
            exact Except.noConfusion heq

/-- C3 (code bug): `_create_device_info` passes the whole
`_redback_site_load` dictionary to `_add_additional_entities`, whose
`round(site_load_data, 3)` then raises `TypeError`, so the
`inverter_site_load_instantaneous_kw` entity is never produced and every
refresh that processes at least one inverter fails. -/
theorem site_load_round_raises :
    (∀ (m : List (List Char × ℚ)) (s : RawStatic)
        (sel : List (List Char × Option (List Char)))
        (scheds : List SchedEntity),
      addAdditionalEntities (.dict m) s sel scheds = .error .typeError) ∧
    (∀ (im : List (List Char)) (dir now : Int) (oracle : FetchOracle)
        (st st' : ClientState), oracle.serials ≠ [] →
      create_device_info im dir now oracle st ≠ .ok st') := by
  refine ⟨addAdditionalEntities_dict_error, ?_⟩
  intro im dir now oracle st st' hser h
  rw [create_device_info] at h
  rw [pyNot_check, if_pos rfl] at h
  cases hs : oracle.serials with
  | nil => exact hser hs
  | cons sn rest =>
    rw [hs] at h
    dsimp only [clearRebuilt] at h
    rw [List.foldlM_cons] at h
    obtain ⟨stf, hstf, h⟩ := exceptBind_ok_inv h
    obtain ⟨st1, hst1, h1⟩ := exceptBind_ok_inv hstf
    exact serialStep_not_ok im now oracle _ sn st1 hst1

theorem site_load_round_raises_witness :
    exceptIsOk (create_device_info [] 600 0 oracleOne initialState) =
      false := by
  cases hq : create_device_info [] 600 0 oracleOne initialState with
  | error e => rfl
  | ok st' =>
    exact absurd hq
      (site_load_round_raises.2 [] 600 0 oracleOne initialState st'
        (by decide))

/-- Counterexample to C8 as stated: with the freshness window not yet
elapsed (`_check_device_info_refresh` returns `False` at `now = 0`), a
refresh still clears and rebuilds the device-info records and entity
lists. -/
theorem refresh_skip_cex :
    checkDeviceInfoRefresh staleState.device_info_refresh_time 0 =
      some false ∧
    staleState.entities ≠ [] ∧ staleState.device_info ≠ [] ∧
    (create_device_info [] 600 0 oracleEmpty staleState).map
      (fun st => (st.entities, st.device_info)) = .ok ([], []) := by
  refine ⟨rfl, by decide, by decide, rfl⟩

/-- C8 (amended): the freshness check never prevents a rebuild:
`_check_device_info_refresh` never returns `True`, the serial-list refetch
guard `not _check_device_info_refresh()` is always truthy, and
`_create_device_info` produces the same result whatever device-info
records, entity lists, or serial numbers were previously stored — it
clears and rebuilds them on every call. -/
theorem refresh_never_skips_rebuild :
    (∀ (rt : Option Int) (now : Int),
      checkDeviceInfoRefresh rt now ≠ some true ∧
      pyNotOpt (checkDeviceInfoRefresh rt now) = true) ∧
    (∀ (im : List (List Char)) (dir now : Int) (oracle : FetchOracle)
        (st : ClientState),
      create_device_info im dir now oracle st =
        create_device_info im dir now oracle (clearRebuilt st)) ∧
    (∀ (im : List (List Char)) (dir now : Int) (oracle : FetchOracle)
        (st : ClientState) (sn : List (List Char)),
      create_device_info im dir now oracle st =
        create_device_info im dir now oracle
          { st with serial_numbers := sn }) := by
  refine ⟨?_, ?_, ?_⟩
  · intro rt now
    constructor
    · cases rt with
      | none => simp [checkDeviceInfoRefresh]
      | some t =>
        rw [checkDeviceInfoRefresh]
        by_cases h : t - now < 10
        · rw [if_pos h]
          simp
        · rw [if_neg h]
          simp
    · exact pyNot_check rt now
  · intro im dir now oracle st
    cases st
    simp [create_device_info, clearRebuilt, pyNot_check]
  · intro im dir now oracle st sn
    cases st
    simp [create_device_info, clearRebuilt, pyNot_check]

theorem refresh_never_skips_witness :
    pyNotOpt (checkDeviceInfoRefresh (some 1000000) 0) = true ∧
    create_device_info [] 600 0 oracleEmpty staleState =
      create_device_info [] 600 0 oracleEmpty (clearRebuilt staleState) :=
  ⟨(refresh_never_skips_rebuild.1 (some 1000000) 0).2,
   refresh_never_skips_rebuild.2.1 [] 600 0 oracleEmpty staleState⟩

theorem portal_takeCall_ok_inv {calls : List (Except PyErr (List Char))}
    {p : List Char × List (Except PyErr (List Char))}
    (h : takeCall calls = .ok p) :
    ∃ rest, calls = .ok p.1 :: rest ∧ p.2 = rest := by
  cases calls with
  | nil => exact Except.noConfusion h
  | cons c rest =>
    cases c with
    | error e => exact Except.noConfusion h
    | ok t =>
      refine ⟨rest, ?_, ?_⟩
      · rw [show p = (t, rest) from (Except.ok.inj h).symm]
      · rw [show p = (t, rest) from (Except.ok.inj h).symm]

/-- Counterexample to C9 as stated: when the configure-page GET raises,
`set_inverter_mode_portal` propagates the exception without closing the
portal session it opened. -/
theorem portal_session_close_cex :
    exceptIsOk (setInverterModePortal
      [.ok ("loginpage".data), .ok ("loggedin".data), .error .valueError]
      (fun _ => some ("tok".data)) (fun _ => some ("tok2".data))).1 =
      false ∧
    (setInverterModePortal
      [.ok ("loginpage".data), .ok ("loggedin".data), .error .valueError]
      (fun _ => some ("tok".data)) (fun _ => some ("tok2".data))).2 =
      false := by
  exact ⟨rfl, rfl⟩

/-- C9 (amended): the portal operations close the session they open on
every successful exit path (both return paths of
`test_portal_connection`, and the completed mode-set), but when a portal
GET/POST raises, the exception propagates before the `close()` call and
the session is left open. -/
theorem portal_sessions_closed_on_success_only :
    (∀ (calls : List (Except PyErr (List Char)))
        (find1 find2 : List Char → Option (List Char)),
      (exceptIsOk (setInverterModePortal calls find1 find2).1 = true →
        (setInverterModePortal calls find1 find2).2 = true) ∧
      (exceptIsOk (setInverterModePortal calls find1 find2).1 = false →
        (setInverterModePortal calls find1 find2).2 = false)) ∧
    (∀ (calls : List (Except PyErr (List Char)))
        (find1 : List Char → Option (List Char)),
      (exceptIsOk (testPortalConnection calls find1).1 = true →
        (testPortalConnection calls find1).2 = true) ∧
      (exceptIsOk (testPortalConnection calls find1).1 = false →
        (testPortalConnection calls find1).2 = false)) := by
  constructor
  · intro calls find1 find2
    rw [setInverterModePortal]
    cases h1 : portalLoginSeq calls find1 with
    | error e => exact ⟨fun hc => Bool.noConfusion hc, fun _ => rfl⟩
    | ok p1 =>
      obtain ⟨tok, calls1⟩ := p1
      dsimp only
      cases h2 : takeCall calls1 with
      | error e => exact ⟨fun hc => Bool.noConfusion hc, fun _ => rfl⟩
      | ok p2 =>
        obtain ⟨html, calls2⟩ := p2
        dsimp only
        cases h3 : find2 html with
        | none => exact ⟨fun hc => Bool.noConfusion hc, fun _ => rfl⟩
        | some tok2 =>
          dsimp only
          cases h4 : takeCall calls2 with
          | error e => exact ⟨fun hc => Bool.noConfusion hc, fun _ => rfl⟩
          | ok p3 => exact ⟨fun _ => rfl, fun hc => Bool.noConfusion hc⟩
  · intro calls find1
    rw [testPortalConnection]
    cases h1 : portalLoginSeq calls find1 with
    | error e => exact ⟨fun hc => Bool.noConfusion hc, fun _ => rfl⟩
    | ok p1 =>
      obtain ⟨tok, calls1⟩ := p1
      exact ⟨fun _ => rfl, fun hc => Bool.noConfusion hc⟩

theorem portal_sessions_closed_witness :
    (setInverterModePortal
      [.ok ("loginpage".data), .ok ("loggedin".data),
       .ok ("configpage".data), .ok ("set".data)]
      (fun _ => some ("tok".data)) (fun _ => some ("tok2".data))).2 =
      true :=
  ((portal_sessions_closed_on_success_only.1
    [.ok ("loginpage".data), .ok ("loggedin".data),
     .ok ("configpage".data), .ok ("set".data)]
    (fun _ => some ("tok".data)) (fun _ => some ("tok2".data))).1
    (by decide))

theorem lookupAssoc_dictSet_self {β : Type}
    (m : List (List Char × β)) (k : List Char) (v : β) :
    lookupAssoc (dictSet m k v) k = some v := by
  simp [lookupAssoc, dictSet, List.find?]

/-- C10: both schedule-deletion operations reset the device's Selected
Schedule to `None` as their first step, before issuing any vendor delete
call. -/
theorem delete_resets_selected_schedule :
    ∀ (device_info : List DeviceInfoRec)
      (selected : List (List Char × Option (List Char)))
      (device_id schedule_id : List Char) (dev : DeviceInfoRec),
      device_info.find? (fun d => d.identifiers == device_id) = some dev →
      (∃ sel' acts,
        deleteInverterSchedule device_info selected device_id schedule_id =
          .ok (sel', acts) ∧
        lookupAssoc sel' device_id = some Option.none ∧
        acts = [.setSelectedNone device_id,
                .apiDelete dev.serial_number schedule_id]) ∧
      (∀ schedules, ∃ sel' acts,
        deleteAllInverterSchedules device_info selected schedules
          device_id = .ok (sel', acts) ∧
        lookupAssoc sel' device_id = some Option.none ∧
        acts.head? = some (.setSelectedNone device_id) ∧
        ∀ a ∈ acts.tail, ∃ serial sch, a = .apiDelete serial sch) := by
  intro device_info selected device_id schedule_id dev hfind
  constructor
  · refine ⟨dictSet selected device_id Option.none,
      [.setSelectedNone device_id,
       .apiDelete dev.serial_number schedule_id], ?_, ?_, rfl⟩
    · rw [deleteInverterSchedule, hfind]
    · exact lookupAssoc_dictSet_self selected device_id Option.none
  · intro schedules
    refine ⟨dictSet selected device_id Option.none,
      .setSelectedNone device_id ::
        (schedules.filter
          (fun sch => sch.serial_number == dev.serial_number)).map
          (fun sch => .apiDelete dev.serial_number sch.schedule_id),
      ?_, ?_, rfl, ?_⟩
    · rw [deleteAllInverterSchedules, hfind]
    · exact lookupAssoc_dictSet_self selected device_id Option.none
    · intro a ha
      simp only [List.tail_cons] at ha
      obtain ⟨sch, hs, hval⟩ := List.mem_map.mp ha
      exact ⟨dev.serial_number, sch.schedule_id, hval.symm⟩

theorem delete_resets_selected_witness :
    ∃ sel' acts,
      deleteInverterSchedule [createDeviceInfoInverter sampleStatic]
        [] ("2233inv".data) ("sch-1".data) = .ok (sel', acts) ∧
      lookupAssoc sel' ("2233inv".data) = some Option.none ∧
      acts = [.setSelectedNone ("2233inv".data),
        .apiDelete ("RB221500112233".data) ("sch-1".data)] :=
  (delete_resets_selected_schedule [createDeviceInfoInverter sampleStatic]
    [] ("2233inv".data) ("sch-1".data)
    (createDeviceInfoInverter sampleStatic) (by decide)).1

end Redback
